import Mathlib

/-! # quick-match: swipe ledger and match detector

A shallow embedding of `internal/models/swipe.go`, `internal/repository/dynamodb.go`
(`InsertSwipeRecord`, `CheckSwipeMatch`) and `internal/handlers/swipe/swipehandler.go`
(`SwipeHandler`), followed by theorems about them.

Conventions
* Go `error` values are `Option Error` (`none` is `nil`); a Go `(bool, error)` result is a pair.
* The DynamoDB client (`repo.Client`) is not part of the repository: it is a record of functions
  over an abstract store state. `memClient` is the in-memory table used as the store model.
* The handler is written with explicit state passing; every collaborator call it makes is
  appended to a call log so that "calls", "never calls" and "passes to" can be stated.
-/

namespace QuickMatch

/-! ## internal/models/swipe.go -/

/-- Go `error` values, identified by their message. -/
abbrev Error := String

/-- The struct `models.Swipe`. -/
structure Swipe where
  UserID : String
  SwipedUserID : String
  Preference : Bool
  Matched : Bool
  MatchID : String
deriving DecidableEq, Repr

/-- The struct `models.SwipeResponse`. -/
structure SwipeResponse where
  Matched : Bool
  MatchID : String
deriving DecidableEq, Repr

/-! ## The DynamoDB client boundary (aws-sdk-go, external) -/

/-- The attribute values the swipe table uses (`dynamodb.AttributeValue`). -/
inductive AttributeValue where
  | S (s : String)
  | BOOL (b : Bool)
  | NULL
deriving DecidableEq, Repr

/-- A table item: attribute name to attribute value. -/
abbrev Item := List (String × AttributeValue)

/-- The encoder of `dynamodbattribute` writes an empty string as `NULL`. -/
def marshalString (s : String) : AttributeValue :=
  if s = "" then AttributeValue.NULL else AttributeValue.S s

/-- The call `dynamodbattribute.MarshalMap(swipe)`, following the `dynamodbav` tags of
`models.Swipe`. It cannot fail on this struct. -/
def MarshalMap (swipe : Swipe) : Item :=
  [("UserID", marshalString swipe.UserID),
   ("SwipedUserID", marshalString swipe.SwipedUserID),
   ("preference", AttributeValue.BOOL swipe.Preference),
   ("matched", AttributeValue.BOOL swipe.Matched),
   ("matchId", marshalString swipe.MatchID)]

/-- Decoding one attribute into a Go `string` field: a missing or `NULL` attribute leaves the
zero value, a value of another type is an unmarshal type error. -/
def unmarshalString (av : Option AttributeValue) : Except Error String :=
  match av with
  | none => .ok ""
  | some AttributeValue.NULL => .ok ""
  | some (AttributeValue.S s) => .ok s
  | some (AttributeValue.BOOL _) => .error "UnmarshalTypeError"

/-- Decoding one attribute into a Go `bool` field. -/
def unmarshalBool (av : Option AttributeValue) : Except Error Bool :=
  match av with
  | none => .ok false
  | some AttributeValue.NULL => .ok false
  | some (AttributeValue.BOOL b) => .ok b
  | some (AttributeValue.S _) => .error "UnmarshalTypeError"

/-- The call `dynamodbattribute.UnmarshalMap(item, &swipe)` on a zero `models.Swipe`. -/
def UnmarshalMap (item : Item) : Except Error Swipe :=
  match unmarshalString (item.lookup "UserID") with
  | .error e => .error e
  | .ok userID =>
    match unmarshalString (item.lookup "SwipedUserID") with
    | .error e => .error e
    | .ok swipedUserID =>
      match unmarshalBool (item.lookup "preference") with
      | .error e => .error e
      | .ok preference =>
        match unmarshalBool (item.lookup "matched") with
        | .error e => .error e
        | .ok matched =>
          match unmarshalString (item.lookup "matchId") with
          | .error e => .error e
          | .ok matchID =>
            .ok { UserID := userID, SwipedUserID := swipedUserID, Preference := preference,
                  Matched := matched, MatchID := matchID }

/-- The struct `dynamodb.PutItemInput`, with the fields the repository sets. -/
structure PutItemInput where
  Item : Item
  TableName : String
deriving DecidableEq, Repr

/-- The struct `dynamodb.QueryInput`, with the fields the repository sets. The key condition built by
the expression builder is a conjunction of `name = value` tests, kept as a list. -/
structure QueryInput where
  TableName : String
  IndexName : Option String
  KeyCondition : List (String × AttributeValue)
  ProjectionExpression : String
deriving DecidableEq, Repr

/-- The struct `dynamodb.QueryOutput`. The client always hands back an output struct, also next to
an error (its `Items` are then empty). -/
structure QueryOutput where
  Items : List Item
deriving DecidableEq, Repr

/-- The part of `*dynamodb.DynamoDB` the swipe repository uses, over a store state `σ`. -/
structure DynamoDB (σ : Type) where
  PutItem : PutItemInput → σ → Option Error × σ
  Query : QueryInput → σ → QueryOutput × Option Error

/-! ## internal/repository/dynamodb.go -/

/-- The constant `swipesTable`. -/
def swipesTable : String := "quickmatch_swipes"

/-- The struct `DynamoDBRepository`. -/
structure DynamoDBRepository (σ : Type) where
  Client : DynamoDB σ

/-- The method `InsertSwipeRecord`: marshal the swipe and put it into the swipes table. -/
def DynamoDBRepository.InsertSwipeRecord {σ : Type} (repo : DynamoDBRepository σ)
    (swipe : Swipe) (db : σ) : Option Error × σ :=
  let av := MarshalMap swipe
  let input : PutItemInput := { Item := av, TableName := swipesTable }
  repo.Client.PutItem input db

/-- The loop `for _, item := range result.Items` of `CheckSwipeMatch`: unmarshal each item, stop
with the error on a failure, stop with `true` on the first item whose preference is set. -/
def scanItems : List Item → Bool × Option Error
  | [] => (false, none)
  | item :: rest =>
    match UnmarshalMap item with
    | .error err => (false, some err)
    | .ok swipe => if swipe.Preference then (true, none) else scanItems rest

/-- The query `CheckSwipeMatch` sends: the index `SwipedUserIndex`, the key condition
`SwipedUserID = currentUserID AND UserID = swipedUserID`, projecting `preference`. -/
def checkSwipeMatchQuery (swipedUserID currentUserID : String) : QueryInput :=
  { TableName := swipesTable
    IndexName := some "SwipedUserIndex"
    KeyCondition := [("SwipedUserID", marshalString currentUserID),
                     ("UserID", marshalString swipedUserID)]
    ProjectionExpression := "preference" }

/-- The method `CheckSwipeMatch`. The emptiness test on `result.Items` comes before the test of
`err`, as in the source. (Building a two-key condition with the expression builder does not
fail, so that early return is not modelled.) -/
def DynamoDBRepository.CheckSwipeMatch {σ : Type} (repo : DynamoDBRepository σ)
    (swipedUserID currentUserID : String) (db : σ) : Bool × Option Error :=
  let queryInput := checkSwipeMatchQuery swipedUserID currentUserID
  let (result, err) := repo.Client.Query queryInput db
  if result.Items.length = 0 then
    (false, none)
  else
    match err with
    | some e => (false, some e)
    | none => scanItems result.Items

/-! ## The store model: an in-memory swipes table -/

/-- The store: the items put so far, oldest first. -/
abbrev Store := List Item

/-- An item satisfies a key condition when each named attribute is present with that value. -/
def satisfiesKey (cond : List (String × AttributeValue)) (item : Item) : Bool :=
  cond.all (fun kv => decide (item.lookup kv.1 = some kv.2))

/-- A projection keeps the named attribute only. -/
def project (attr : String) (item : Item) : Item :=
  item.filter (fun kv => kv.1 == attr)

/-- The in-memory client: `PutItem` appends the item and succeeds, `Query` succeeds with the
projection of every item that satisfies the key condition. -/
def memClient : DynamoDB Store where
  PutItem := fun input db => (none, db ++ [input.Item])
  Query := fun input db =>
    ({ Items := (db.filter (satisfiesKey input.KeyCondition)).map
                  (project input.ProjectionExpression) }, none)

/-- The repository over the in-memory client. -/
def memRepo : DynamoDBRepository Store := { Client := memClient }

/-- A client whose store is down: every call fails, `Query` with the empty output struct. -/
def downClient : DynamoDB Unit where
  PutItem := fun _ db => (some "RequestError: send request failed", db)
  Query := fun _ _ => ({ Items := [] }, some "RequestError: send request failed")

/-! ## internal/handlers/swipe/swipehandler.go -/

/-- The interface `repository.SwipeRepo`, over a store state `σ`. An implementation of
`CheckSwipeMatch` may touch the state (a mock records its calls). -/
structure SwipeRepo (σ : Type) where
  InsertSwipeRecord : Swipe → σ → Option Error × σ
  CheckSwipeMatch : String → String → σ → (Bool × Option Error) × σ

/-- The struct `SwipeDeps`. -/
structure SwipeDeps (σ : Type) where
  SwipeRepo : SwipeRepo σ

/-- The wiring `NewSwipeService` of `cmd/util/util.go`: a `DynamoDBRepository` used as the
`SwipeRepo`. Its `CheckSwipeMatch` only reads. -/
def NewSwipeService {σ : Type} (ddb : DynamoDBRepository σ) : SwipeDeps σ :=
  { SwipeRepo :=
      { InsertSwipeRecord := fun swipe db => ddb.InsertSwipeRecord swipe db
        CheckSwipeMatch := fun swipedUserID currentUserID db =>
          (ddb.CheckSwipeMatch swipedUserID currentUserID db, db) } }

/-- What a request runs against: the store, and how many ids `uuid.New()` has produced so far in
this process. The `n`-th id itself is given by a function `uuid : Nat → String`. -/
structure World (σ : Type) where
  store : σ
  minted : Nat
deriving DecidableEq, Repr

/-- An incoming request as the handler sees it: `Body` is the result of decoding the JSON body into
`models.Swipe` (`none` when decoding fails; fields absent from the body are zero), `UserID` is
the context value `"UserID"` when it is a string. -/
structure Request where
  Body : Option Swipe
  UserID : Option String
deriving DecidableEq, Repr

/-- A request whose body decodes to `body` and whose context carries the verified `UserID`. -/
def swipeRequest (UserID : String) (body : Swipe) : Request :=
  { Body := some body, UserID := some UserID }

/-- JSON values occurring in a swipe response. -/
inductive JSONValue where
  | bool (b : Bool)
  | str (s : String)
deriving DecidableEq, Repr

/-- The JSON encoding of `models.SwipeResponse`: `matchId` has `omitempty`. -/
def encodeSwipeResponse (sp : SwipeResponse) : List (String × JSONValue) :=
  if sp.MatchID = "" then [("matched", JSONValue.bool sp.Matched)]
  else [("matched", JSONValue.bool sp.Matched), ("matchId", JSONValue.str sp.MatchID)]

/-- A response body: the message of `http.Error`, or an encoded JSON object. -/
inductive ResponseBody where
  | text (msg : String)
  | json (fields : List (String × JSONValue))
deriving DecidableEq, Repr

/-- What the handler wrote to the `http.ResponseWriter`. -/
structure Response where
  Code : Nat
  ContentType : String
  Body : ResponseBody
deriving DecidableEq, Repr

/-- The call `http.Error(w, msg, code)`. -/
def httpError (msg : String) (code : Nat) : Response :=
  { Code := code, ContentType := "text/plain; charset=utf-8", Body := ResponseBody.text msg }

/-- The tail of the handler: set the content type and encode `sp` (status 200). Encoding a
`SwipeResponse` cannot fail. -/
def writeJSON (sp : SwipeResponse) : Response :=
  { Code := 200, ContentType := "application/json",
    Body := ResponseBody.json (encodeSwipeResponse sp) }

/-- The collaborator calls a handler run makes, in order. -/
inductive Call where
  | InsertSwipeRecord (swipe : Swipe)
  | CheckSwipeMatch (swipedUserID currentUserID : String)
  | uuidNew
deriving DecidableEq, Repr

/-- The result of one handler run. -/
structure Outcome (σ : Type) where
  response : Response
  calls : List Call
  world : World σ

/-- The handler `SwipeHandler`. The two tests `s.Preference == false` and `s.Preference == true`
of the source are one `if`: `s.Preference` is not assigned in between. -/
def SwipeHandler {σ : Type} (deps : SwipeDeps σ) (uuid : Nat → String) (r : Request)
    (w : World σ) : Outcome σ :=
  match r.Body with
  | none => { response := httpError "Invalid request body" 400, calls := [], world := w }
  | some body =>
    match r.UserID with
    | none => { response := httpError "Failed to authenticate" 500, calls := [], world := w }
    | some UserID =>
      let s : Swipe := { body with UserID := UserID }
      let sp : SwipeResponse := { Matched := false, MatchID := "" }
      if s.Preference = false then
        let sp : SwipeResponse := { sp with Matched := false }
        let (err, store1) := deps.SwipeRepo.InsertSwipeRecord s w.store
        match err with
        | some _ =>
          { response := httpError "Failed to insert swipe record" 500
            calls := [Call.InsertSwipeRecord s]
            world := { w with store := store1 } }
        | none =>
          { response := writeJSON sp
            calls := [Call.InsertSwipeRecord s]
            world := { w with store := store1 } }
      else
        let ((isMatch, err), store1) := deps.SwipeRepo.CheckSwipeMatch s.SwipedUserID UserID w.store
        match err with
        | some _ =>
          { response := httpError "Failed to check for swipe match" 500
            calls := [Call.CheckSwipeMatch s.SwipedUserID UserID]
            world := { w with store := store1 } }
        | none =>
          if isMatch = true then
            let s : Swipe := { s with MatchID := uuid w.minted }
            let s : Swipe := { s with Matched := true }
            let (err, store2) := deps.SwipeRepo.InsertSwipeRecord s store1
            match err with
            | some _ =>
              { response := httpError "Failed to insert swipe record" 500
                calls := [Call.CheckSwipeMatch s.SwipedUserID UserID, Call.uuidNew,
                          Call.InsertSwipeRecord s]
                world := { store := store2, minted := w.minted + 1 } }
            | none =>
              let sp : SwipeResponse := { sp with MatchID := s.MatchID }
              let sp : SwipeResponse := { sp with Matched := true }
              { response := writeJSON sp
                calls := [Call.CheckSwipeMatch s.SwipedUserID UserID, Call.uuidNew,
                          Call.InsertSwipeRecord s]
                world := { store := store2, minted := w.minted + 1 } }
          else
            let sp : SwipeResponse := { sp with Matched := false }
            let s : Swipe := { s with Matched := false }
            let (err, store2) := deps.SwipeRepo.InsertSwipeRecord s store1
            match err with
            | some _ =>
              { response := httpError "Failed to insert swipe record" 500
                calls := [Call.CheckSwipeMatch s.SwipedUserID UserID, Call.InsertSwipeRecord s]
                world := { w with store := store2 } }
            | none =>
              { response := writeJSON sp
                calls := [Call.CheckSwipeMatch s.SwipedUserID UserID, Call.InsertSwipeRecord s]
                world := { w with store := store2 } }

/-- The swipe service over the in-memory store. -/
def memDeps : SwipeDeps Store := NewSwipeService memRepo

/-- A sample id source: `m0`, `m1`, ... -/
def sampleUuid (n : Nat) : String := "m" ++ toString n

/-! ## Sequential and interleaved processing of requests -/

/-- Whether the records hold a like of `source` for `target`. -/
def hasLiked (records : List Swipe) (source target : String) : Bool :=
  records.any (fun r => decide (r.UserID = source ∧ r.SwipedUserID = target) && r.Preference)

/-- Whether a response is a JSON object with `matched: true`. -/
def Response.matched (resp : Response) : Bool :=
  match resp.Body with
  | ResponseBody.json fields => decide (fields.lookup "matched" = some (JSONValue.bool true))
  | ResponseBody.text _ => false

/-- The `matchId` member of a JSON response, when it has one. -/
def Response.matchId (resp : Response) : Option String :=
  match resp.Body with
  | ResponseBody.json fields =>
    match fields.lookup "matchId" with
    | some (JSONValue.str id) => some id
    | _ => none
  | ResponseBody.text _ => none

/-- Requests served one after the other, each on the world the previous one left; the log pairs
each request with its response. -/
def serve {σ : Type} (deps : SwipeDeps σ) (uuid : Nat → String) :
    List Request → World σ → List (Request × Response)
  | [], _ => []
  | r :: rest, w =>
    (r, (SwipeHandler deps uuid r w).response)
      :: serve deps uuid rest (SwipeHandler deps uuid r w).world

/-- The world after serving the requests one after the other. -/
def serveWorld {σ : Type} (deps : SwipeDeps σ) (uuid : Nat → String) :
    List Request → World σ → World σ
  | [], w => w
  | r :: rest, w => serveWorld deps uuid rest (SwipeHandler deps uuid r w).world

/-- The acting user and the target of a decodable, authenticated request. -/
def Request.direction (r : Request) : Option (String × String) :=
  match r.Body, r.UserID with
  | some body, some UserID => some (UserID, body.SwipedUserID)
  | _, _ => none

/-- The directions (acting user, target) of the stored records. -/
def recordDirections (records : List Swipe) : List (String × String) :=
  records.map (fun r => (r.UserID, r.SwipedUserID))

/-- Whether a request is a swipe between `A` and `B`, in either direction. -/
def Request.between (A B : String) (r : Request) : Bool :=
  decide (r.direction = some (A, B) ∨ r.direction = some (B, A))

/-- How many responses to swipes between `A` and `B` report a match. -/
def matchesBetween (A B : String) (log : List (Request × Response)) : Nat :=
  (log.filter (fun e => e.1.between A B && e.2.matched)).length

/-- A request in flight. A like request has two store accesses, the read of `CheckSwipeMatch` and
the write of `InsertSwipeRecord`; `checked` is the point between them, holding the local
variables `s`, `UserID` and `isMatch` of the handler. -/
inductive Thread where
  | start (r : Request)
  | checked (s : Swipe) (UserID : String) (isMatch : Bool)
  | finished (response : Response)
deriving DecidableEq, Repr

/-- One scheduling step of a request: the handler code up to and including its next store
access. From `start` this is the decoding, the authentication and then either the dislike
insert or the match lookup; from `checked` it is the rest of the like branch. -/
def Thread.step {σ : Type} (deps : SwipeDeps σ) (uuid : Nat → String) (t : Thread)
    (w : World σ) : Thread × List Call × World σ :=
  match t with
  | Thread.start r =>
    match r.Body with
    | none => (Thread.finished (httpError "Invalid request body" 400), [], w)
    | some body =>
      match r.UserID with
      | none => (Thread.finished (httpError "Failed to authenticate" 500), [], w)
      | some UserID =>
        let s : Swipe := { body with UserID := UserID }
        let sp : SwipeResponse := { Matched := false, MatchID := "" }
        if s.Preference = false then
          let (err, store1) := deps.SwipeRepo.InsertSwipeRecord s w.store
          match err with
          | some _ =>
            (Thread.finished (httpError "Failed to insert swipe record" 500),
              [Call.InsertSwipeRecord s], { w with store := store1 })
          | none =>
            (Thread.finished (writeJSON sp), [Call.InsertSwipeRecord s],
              { w with store := store1 })
        else
          let ((isMatch, err), store1) :=
            deps.SwipeRepo.CheckSwipeMatch s.SwipedUserID UserID w.store
          match err with
          | some _ =>
            (Thread.finished (httpError "Failed to check for swipe match" 500),
              [Call.CheckSwipeMatch s.SwipedUserID UserID], { w with store := store1 })
          | none =>
            (Thread.checked s UserID isMatch, [Call.CheckSwipeMatch s.SwipedUserID UserID],
              { w with store := store1 })
  | Thread.checked s _ isMatch =>
    let sp : SwipeResponse := { Matched := false, MatchID := "" }
    if isMatch = true then
      let s : Swipe := { s with MatchID := uuid w.minted }
      let s : Swipe := { s with Matched := true }
      let (err, store2) := deps.SwipeRepo.InsertSwipeRecord s w.store
      match err with
      | some _ =>
        (Thread.finished (httpError "Failed to insert swipe record" 500),
          [Call.uuidNew, Call.InsertSwipeRecord s], { store := store2, minted := w.minted + 1 })
      | none =>
        let sp : SwipeResponse := { sp with MatchID := s.MatchID }
        let sp : SwipeResponse := { sp with Matched := true }
        (Thread.finished (writeJSON sp), [Call.uuidNew, Call.InsertSwipeRecord s],
          { store := store2, minted := w.minted + 1 })
    else
      let sp : SwipeResponse := { sp with Matched := false }
      let s : Swipe := { s with Matched := false }
      let (err, store2) := deps.SwipeRepo.InsertSwipeRecord s w.store
      match err with
      | some _ =>
        (Thread.finished (httpError "Failed to insert swipe record" 500),
          [Call.InsertSwipeRecord s], { w with store := store2 })
      | none =>
        (Thread.finished (writeJSON sp), [Call.InsertSwipeRecord s], { w with store := store2 })
  | Thread.finished response => (Thread.finished response, [], w)

/-- Two requests in flight over one world, with the calls made so far in global order. -/
structure Pool (σ : Type) where
  first : Thread
  second : Thread
  calls : List Call
  world : World σ

/-- The scheduler lets one of the two requests (`false`: the first, `true`: the second) take its
next step. -/
def Pool.step {σ : Type} (deps : SwipeDeps σ) (uuid : Nat → String) (p : Pool σ)
    (which : Bool) : Pool σ :=
  if which = false then
    let (t, calls, w) := p.first.step deps uuid p.world
    { p with first := t, calls := p.calls ++ calls, world := w }
  else
    let (t, calls, w) := p.second.step deps uuid p.world
    { p with second := t, calls := p.calls ++ calls, world := w }

/-- Running a schedule: the listed steps in order. -/
def interleave {σ : Type} (deps : SwipeDeps σ) (uuid : Nat → String) (schedule : List Bool)
    (p : Pool σ) : Pool σ :=
  schedule.foldl (Pool.step deps uuid) p

/-! ## Sample inputs (the bodies and ids of `swipehandler_test.go`) -/

/-- The body `{SwipedUserID: "user2", Preference: true}` of the like test cases. -/
def likeUser2 : Swipe :=
  { UserID := "", SwipedUserID := "user2", Preference := true, Matched := false, MatchID := "" }

/-- The body `{SwipedUserID: "user2", Preference: false}` of the dislike test case. -/
def dislikeUser2 : Swipe :=
  { UserID := "", SwipedUserID := "user2", Preference := false, Matched := false, MatchID := "" }

/-- A world whose store is empty and in which no id has been minted. -/
def emptyWorld : World Store := { store := [], minted := 0 }

/-- A world in which `user2` has liked `user1`. -/
def user2LikedUser1 : World Store :=
  { store := [MarshalMap { UserID := "user2", SwipedUserID := "user1", Preference := true,
                           Matched := false, MatchID := "" }],
    minted := 0 }

/-! ## The mock of `swipehandler_test.go` -/

/-- How many `InsertSwipeRecord` calls a call log holds. -/
def insertCount (calls : List Call) : Nat :=
  (calls.filter (fun c => match c with
    | Call.InsertSwipeRecord _ => true
    | _ => false)).length

/-- The mock `MockSwipeRepo` of the handler test: each method records its call and returns the
values the test configured (`insertErr`; `isMatch` and `checkErr`). -/
def MockSwipeRepo (insertErr : Option Error) (isMatch : Bool) (checkErr : Option Error) :
    SwipeRepo (List Call) :=
  { InsertSwipeRecord := fun swipe recorded =>
      (insertErr, recorded ++ [Call.InsertSwipeRecord swipe])
    CheckSwipeMatch := fun swipedUserID currentUserID recorded =>
      ((isMatch, checkErr), recorded ++ [Call.CheckSwipeMatch swipedUserID currentUserID]) }

/-- The handler dependencies over the mock. -/
def mockDeps (insertErr : Option Error) (isMatch : Bool) (checkErr : Option Error) :
    SwipeDeps (List Call) :=
  { SwipeRepo := MockSwipeRepo insertErr isMatch checkErr }

/-! ## internal/models/discover.go -/

/-- Go `float64` coordinates. The code copies them and never computes with them; they are kept
as rationals, a carrier with decidable equality. -/
abbrev Float64 := Rat

/-- The struct `models.UserLocationES`. -/
structure UserLocationES where
  Lat : Float64
  Lon : Float64
deriving DecidableEq, Repr

/-- The struct `models.UserDetailsES`. Go `int` is `Int`: the code only compares it with zero. -/
structure UserDetailsES where
  UserID : String
  Name : String
  Gender : String
  Age : Int
  Location : UserLocationES
deriving DecidableEq, Repr

/-- The struct `models.DiscoverFilters`. -/
structure DiscoverFilters where
  UserID : String
  Gender : String
  MaxAge : Int
  MinAge : Int
  MaxLocation : Int
deriving DecidableEq, Repr

/-! ## internal/repository/elasticsearch.go: the query builder -/

/-- The clauses the builder puts into a bool query. Each constructor is one of the nested
`map[string]any` literals of the source, its members kept as arguments:
`term` is `"term": (field: value)`, `range` is `"range": (field: (gte?, lte?))` with an absent
bound as `none`, `geo_distance` is `"geo_distance": (distance, field: location)` and `ids` is
`"ids": (type, values)`. -/
inductive Clause where
  | term (field : String) (value : String)
  | range (field : String) (gte : Option Int) (lte : Option Int)
  | geo_distance (distance : String) (field : String) (location : UserLocationES)
  | ids (type : String) (values : List String)
deriving DecidableEq, Repr

/-- The struct `BoolQuery`. -/
structure BoolQuery where
  MustNot : List Clause
  Filter : List Clause
deriving DecidableEq, Repr

/-- The struct `Query`; its anonymous member struct `Query` holds the one member `Bool`, which
is kept directly. -/
structure Query where
  Bool : BoolQuery
deriving DecidableEq, Repr

/-- The constructor `NewQuery`: the zero query, both clause lists empty. -/
def NewQuery : Query := { Bool := { MustNot := [], Filter := [] } }

/-- The method `AddGenderFilter`. -/
def Query.AddGenderFilter (q : Query) (gender : String) : Query :=
  if gender ≠ "" then
    { q with Bool := { q.Bool with Filter := q.Bool.Filter ++ [Clause.term "gender" gender] } }
  else q

/-- The method `AddAgeRangeFilter`: the range object starts empty, `gte` and `lte` are set one
after the other when their bound is positive. -/
def Query.AddAgeRangeFilter (q : Query) (minAge maxAge : Int) : Query :=
  if maxAge > 0 ∨ minAge > 0 then
    let gte : Option Int := if minAge > 0 then some minAge else none
    let lte : Option Int := if maxAge > 0 then some maxAge else none
    let ageQuery := Clause.range "age" gte lte
    { q with Bool := { q.Bool with Filter := q.Bool.Filter ++ [ageQuery] } }
  else q

/-- The formatting `fmt.Sprintf("%dkm", maxDistanceKM)`. -/
def formatKm (maxDistanceKM : Int) : String := toString maxDistanceKM ++ "km"

/-- The method `AddGeoDistanceFilter`. -/
def Query.AddGeoDistanceFilter (q : Query) (location : UserLocationES) (maxDistanceKM : Int) :
    Query :=
  if maxDistanceKM > 0 then
    { q with Bool := { q.Bool with
        Filter := q.Bool.Filter ++
          [Clause.geo_distance (formatKm maxDistanceKM) "location" location] } }
  else q

/-- The method `AddExclusionFilter`. -/
def Query.AddExclusionFilter (q : Query) (ids : List String) : Query :=
  if ids.length > 0 then
    { q with Bool := { q.Bool with MustNot := q.Bool.MustNot ++ [Clause.ids "_doc" ids] } }
  else q

/-- The query `SearchUsers` builds before it talks to the index (its first five statements). -/
def searchUsersQuery (currentUserLocation : UserLocationES) (swipedUserIDs : List String)
    (discover : DiscoverFilters) : Query :=
  let query := NewQuery
  let query := query.AddExclusionFilter swipedUserIDs
  let query := query.AddGenderFilter discover.Gender
  let query := query.AddAgeRangeFilter discover.MinAge discover.MaxAge
  let query := query.AddGeoDistanceFilter currentUserLocation discover.MaxLocation
  query

/-! ## The search index: bool-query semantics -/

/-- Whether an indexed profile satisfies a clause. The geo test of the index is a parameter
`within center distance point`. A `term` on `gender` is equality with the keyword, a `range`
on `age` checks the bounds that are present, `ids` tests the document id, which `InsertUserES`
sets to the `UserID`. A clause on another field is satisfied by no profile. -/
def Clause.satisfiedBy (within : UserLocationES → String → UserLocationES → Bool)
    (p : UserDetailsES) : Clause → Bool
  | Clause.term field value => decide (field = "gender" ∧ p.Gender = value)
  | Clause.range field gte lte =>
    decide (field = "age") && gte.all (fun b => decide (b ≤ p.Age))
      && lte.all (fun b => decide (p.Age ≤ b))
  | Clause.geo_distance distance field location =>
    decide (field = "location") && within location distance p.Location
  | Clause.ids _ values => decide (p.UserID ∈ values)

/-- A profile matches a bool query when it satisfies every clause in `Filter` and no clause in
`MustNot`. -/
def matchesQuery (within : UserLocationES → String → UserLocationES → Bool) (q : Query)
    (p : UserDetailsES) : Bool :=
  q.Bool.Filter.all (fun c => c.satisfiedBy within p)
    && q.Bool.MustNot.all (fun c => !(c.satisfiedBy within p))

/-- The results of running a query over the indexed profiles. -/
def searchIndex (within : UserLocationES → String → UserLocationES → Bool)
    (index : List UserDetailsES) (q : Query) : List UserDetailsES :=
  index.filter (matchesQuery within q)

/-! ## internal/handlers/discover/discoverhandler.go -/

/-- The interface `repository.GetSwipedUserRepo`, over a state `ω` shared by the collaborators. -/
structure GetSwipedUserRepo (ω : Type) where
  GetSwipedUserIDs : String → ω → (List String × Option Error) × ω

/-- The interface `repository.DiscoverRepo`. -/
structure DiscoverRepo (ω : Type) where
  GetUserByID : String → ω → (UserDetailsES × Option Error) × ω
  SearchUsers : UserLocationES → List String → DiscoverFilters → ω
    → (List UserDetailsES × Option Error) × ω

/-- The struct `DiscoverUserDeps`. -/
structure DiscoverUserDeps (ω : Type) where
  UserRepo : GetSwipedUserRepo ω
  UserRepoES : DiscoverRepo ω

/-- A discover request as the handler sees it: `Body` is the result of decoding the JSON body into
`models.DiscoverFilters` (`none` when decoding fails), `UserID` is the context value `"UserID"`
when it is a string. -/
structure DiscoverRequest where
  Body : Option DiscoverFilters
  UserID : Option String
deriving DecidableEq, Repr

/-- A discover request whose body decodes to `body`, with the verified `UserID` in its context. -/
def discoverRequest (UserID : String) (body : DiscoverFilters) : DiscoverRequest :=
  { Body := some body, UserID := some UserID }

/-- The body of a discover response: the message of `http.Error`, or the encoded user list. -/
inductive DiscoverBody where
  | text (msg : String)
  | users (list : List UserDetailsES)
deriving DecidableEq, Repr

/-- What the discover handler wrote: status code and body. The handler sets its `Content-Type`
header after `WriteHeader`; headers are left out of this model. -/
structure DiscoverResponse where
  Code : Nat
  Body : DiscoverBody
deriving DecidableEq, Repr

/-- The collaborator calls a discover run makes, in order. -/
inductive DiscoverCall where
  | GetSwipedUserIDs (userID : String)
  | GetUserByID (userID : String)
  | SearchUsers (currentUserLocation : UserLocationES) (swipedUserIDs : List String)
      (df : DiscoverFilters)
deriving DecidableEq, Repr

/-- The result of one discover run. -/
structure DiscoverOutcome (ω : Type) where
  response : DiscoverResponse
  calls : List DiscoverCall
  state : ω

/-- The handler `DiscoverUserInsert`. Encoding the user list cannot fail on these values. -/
def DiscoverUserInsert {ω : Type} (deps : DiscoverUserDeps ω) (r : DiscoverRequest) (st : ω) :
    DiscoverOutcome ω :=
  match r.Body with
  | none =>
    { response := { Code := 400, Body := DiscoverBody.text "Invalid request body" }
      calls := [], state := st }
  | some body =>
    match r.UserID with
    | none =>
      { response := { Code := 500, Body := DiscoverBody.text "Failed to authenticate" }
        calls := [], state := st }
    | some UserID =>
      let df : DiscoverFilters := { body with UserID := UserID }
      let ((swipedIDs, err), st1) := deps.UserRepo.GetSwipedUserIDs UserID st
      match err with
      | some _ =>
        { response := { Code := 500, Body := DiscoverBody.text "Failed to find Swiped IDs" }
          calls := [DiscoverCall.GetSwipedUserIDs UserID], state := st1 }
      | none =>
        let ((user, err), st2) := deps.UserRepoES.GetUserByID UserID st1
        match err with
        | some _ =>
          { response := { Code := 500,
                          Body := DiscoverBody.text "Failed to fetch user from Elasticsearch" }
            calls := [DiscoverCall.GetSwipedUserIDs UserID, DiscoverCall.GetUserByID UserID]
            state := st2 }
        | none =>
          let currentUserLocation := user.Location
          let ((filteredUsers, err), st3) :=
            deps.UserRepoES.SearchUsers currentUserLocation swipedIDs df st2
          match err with
          | some _ =>
            { response := { Code := 500,
                            Body := DiscoverBody.text "Failed to search users with df" }
              calls := [DiscoverCall.GetSwipedUserIDs UserID, DiscoverCall.GetUserByID UserID,
                        DiscoverCall.SearchUsers currentUserLocation swipedIDs df]
              state := st3 }
          | none =>
            { response := { Code := 200, Body := DiscoverBody.users filteredUsers }
              calls := [DiscoverCall.GetSwipedUserIDs UserID, DiscoverCall.GetUserByID UserID,
                        DiscoverCall.SearchUsers currentUserLocation swipedIDs df]
              state := st3 }

/-- The mocks `MockGetSwipedUserRepo` and `MockDiscoverRepo` of the discover test as handler
dependencies: each method records its call and returns the configured values. -/
def mockDiscoverDeps (swiped : List String × Option Error)
    (user : UserDetailsES × Option Error) (found : List UserDetailsES × Option Error) :
    DiscoverUserDeps (List DiscoverCall) :=
  { UserRepo :=
      { GetSwipedUserIDs := fun userID recorded =>
          (swiped, recorded ++ [DiscoverCall.GetSwipedUserIDs userID]) }
    UserRepoES :=
      { GetUserByID := fun userID recorded =>
          (user, recorded ++ [DiscoverCall.GetUserByID userID])
        SearchUsers := fun currentUserLocation swipedUserIDs df recorded =>
          (found, recorded ++ [DiscoverCall.SearchUsers currentUserLocation swipedUserIDs df]) } }

/-- The zero value `models.DiscoverFilters{}`, the body of the discover test cases. -/
def noFilters : DiscoverFilters :=
  { UserID := "", Gender := "", MaxAge := 0, MinAge := 0, MaxLocation := 0 }

/-- The zero value `models.UserDetailsES{}`. -/
def zeroUser : UserDetailsES :=
  { UserID := "", Name := "", Gender := "", Age := 0, Location := { Lat := 0, Lon := 0 } }

/-- A sample profile. -/
def sampleProfile : UserDetailsES :=
  { UserID := "user2", Name := "Robin", Gender := "F", Age := 30,
    Location := { Lat := 51, Lon := 0 } }

/-- A geo test for sample runs: a point is within any distance of itself only. -/
def sameSpot (center : UserLocationES) (_distance : String) (point : UserLocationES) : Bool :=
  decide (center = point)

/-! ## internal/repository/dynamodb.go: `GetSwipedUserIDs` -/

/-- The query `GetSwipedUserIDs` sends: the table itself (no index), the key condition
`UserID = userID`, projecting `SwipedUserID`. -/
def getSwipedUserIDsQuery (userID : String) : QueryInput :=
  { TableName := swipesTable
    IndexName := none
    KeyCondition := [("UserID", marshalString userID)]
    ProjectionExpression := "SwipedUserID" }

/-- The loop of `GetSwipedUserIDs`: unmarshal each item and append its `SwipedUserID`; an
unmarshal failure returns `nil` and the error. -/
def collectSwipedUserIDs : List Item → List String → List String × Option Error
  | [], swipedUserIDs => (swipedUserIDs, none)
  | item :: rest, swipedUserIDs =>
    match UnmarshalMap item with
    | .error err => ([], some err)
    | .ok swipe => collectSwipedUserIDs rest (swipedUserIDs ++ [swipe.SwipedUserID])

/-- The method `GetSwipedUserIDs`. Here the error of the query is tested first. -/
def DynamoDBRepository.GetSwipedUserIDs {σ : Type} (repo : DynamoDBRepository σ)
    (userID : String) (db : σ) : List String × Option Error :=
  let queryInput := getSwipedUserIDsQuery userID
  let (result, err) := repo.Client.Query queryInput db
  match err with
  | some e => ([], some e)
  | none => collectSwipedUserIDs result.Items []

/-! ## internal/repository/elasticsearch.go: `GetUserByID` and `SearchUsers` -/

/-- What `EsClient.Get` hands back, as far as `GetUserByID` looks at it: a transport error, an
error status (with the rendering `res.String()`), a body that is not JSON, or a decoded body
with its `_source` member when it has one, given as the result of `mapstructure.Decode` into
`models.UserDetailsES`. -/
inductive GetResponse where
  | failed (err : Error)
  | isError (rendering : String)
  | unparsable (err : Error)
  | body (source : Option (Except Error UserDetailsES))

/-- What `EsClient.Search` hands back, as far as `SearchUsers` looks at it: a transport error,
an error status whose body is not JSON or carries `error.type` and `error.reason`, a body that
is not JSON, or the hits, each given as the result of `mapstructure.Decode` of its `_source`. -/
inductive SearchResponse where
  | failed (err : Error)
  | isError (status : String) (error : Except Error (String × String))
  | unparsable (err : Error)
  | hits (sources : List (Except Error UserDetailsES))

/-- The part of `*elasticsearch.Client` the repository uses for discovery, over an index state
`ι`: `Get index id` and `Search index body`. -/
structure EsClient (ι : Type) where
  Get : String → String → ι → GetResponse
  Search : String → Query → ι → SearchResponse

/-- The struct `ElasticSearchRepository`. -/
structure ElasticSearchRepository (ι : Type) where
  EsClient : EsClient ι

/-- The method `GetUserByID`. On the error paths the user returned next to the error is given
as the zero value. A body without `_source` yields the zero user and no error. -/
def ElasticSearchRepository.GetUserByID {ι : Type} (repo : ElasticSearchRepository ι)
    (userID : String) (idx : ι) : UserDetailsES × Option Error :=
  let user := zeroUser
  match repo.EsClient.Get "users" userID idx with
  | GetResponse.failed err => (user, some err)
  | GetResponse.isError rendering =>
    (user, some ("Error fetching user with ID " ++ userID ++ ": " ++ rendering))
  | GetResponse.unparsable err => (user, some ("Error parsing the response body: " ++ err))
  | GetResponse.body none => (user, none)
  | GetResponse.body (some (.error err)) =>
    (user, some ("Error decoding source into user model: " ++ err))
  | GetResponse.body (some (.ok decoded)) => (decoded, none)

/-- The loop over the hits of `SearchUsers`. -/
def decodeHits : List (Except Error UserDetailsES) → List UserDetailsES
    → List UserDetailsES × Option Error
  | [], users => (users, none)
  | .error err :: _, _ => ([], some ("error decoding hit source: " ++ err))
  | .ok user :: rest, users => decodeHits rest (users ++ [user])

/-- The method `SearchUsers`: build the query, run it on the index `users`, decode the hits.
Encoding the query cannot fail on these values. -/
def ElasticSearchRepository.SearchUsers {ι : Type} (repo : ElasticSearchRepository ι)
    (currentUserLocation : UserLocationES) (swipedUserIDs : List String)
    (discover : DiscoverFilters) (idx : ι) : List UserDetailsES × Option Error :=
  let query := searchUsersQuery currentUserLocation swipedUserIDs discover
  match repo.EsClient.Search "users" query idx with
  | SearchResponse.failed err => ([], some ("error getting response: " ++ err))
  | SearchResponse.isError _ (.error err) =>
    ([], some ("error parsing the response body: " ++ err))
  | SearchResponse.isError status (.ok (type, reason)) =>
    ([], some ("[" ++ status ++ "] " ++ type ++ ": " ++ reason))
  | SearchResponse.unparsable err => ([], some ("error parsing the response body: " ++ err))
  | SearchResponse.hits sources => decodeHits sources []

/-- The wiring `NewDiscoverService` of `cmd/util/util.go`: the swiped ids come from the
DynamoDB repository, profile and search from the Elasticsearch repository. All three only
read. -/
def NewDiscoverService {σ ι : Type} (ddb : DynamoDBRepository σ)
    (es : ElasticSearchRepository ι) : DiscoverUserDeps (σ × ι) :=
  { UserRepo :=
      { GetSwipedUserIDs := fun userID st => (ddb.GetSwipedUserIDs userID st.1, st) }
    UserRepoES :=
      { GetUserByID := fun userID st => (es.GetUserByID userID st.2, st)
        SearchUsers := fun currentUserLocation swipedUserIDs df st =>
          (es.SearchUsers currentUserLocation swipedUserIDs df st.2, st) } }

/-- The in-memory search index: the indexed profiles, the document id of a profile being its
`UserID`. `Get` finds the profile with that id or answers with an error status, `Search`
answers with every profile that matches the query. The geo test is the parameter `within`. -/
def memEsClient (within : UserLocationES → String → UserLocationES → Bool) :
    EsClient (List UserDetailsES) where
  Get := fun _ id index =>
    match index.find? (fun p => decide (p.UserID = id)) with
    | some p => GetResponse.body (some (.ok p))
    | none => GetResponse.isError "[404 Not Found]"
  Search := fun _ q index => SearchResponse.hits ((searchIndex within index q).map .ok)

/-- The discover service over the in-memory store and the in-memory index. -/
def memDiscoverDeps (within : UserLocationES → String → UserLocationES → Bool) :
    DiscoverUserDeps (Store × List UserDetailsES) :=
  NewDiscoverService memRepo { EsClient := memEsClient within }

/-- A sample index: `user1`, `user2` and `user3`, all at the same spot. -/
def sampleIndex : List UserDetailsES :=
  [{ sampleProfile with UserID := "user1", Name := "Kim", Gender := "M" },
   sampleProfile,
   { sampleProfile with UserID := "user3", Name := "Alex" }]

/-! ## internal/models/user.go, internal/models/login.go -/

/-- The struct `models.UserDetails` (the embedded `Userlocation` flattened). -/
structure UserDetails where
  UserID : String
  Email : String
  Password : String
  PasswordHashed : String
  Name : String
  Gender : String
  Age : Int
  Latitude : Float64
  Longitude : Float64
deriving DecidableEq, Repr

/-- The struct `models.LoginCredentials`. -/
structure LoginCredentials where
  Email : String
  Password : String
deriving DecidableEq, Repr

/-- The struct `models.LoginResponse`. -/
structure LoginResponse where
  Token : String
deriving DecidableEq, Repr

/-! ## internal/repository/dynamodb.go: `GetUserByEmail` -/

/-- The constant `usersTable`. -/
def usersTable : String := "quickmatch_users"

/-- The struct `dynamodb.ScanInput`, with the fields the repository sets; the filter built by the
expression builder is the one test `name = value`. -/
structure ScanInput where
  TableName : String
  Filter : String × AttributeValue
deriving DecidableEq, Repr

/-- The struct `dynamodb.ScanOutput`. -/
structure ScanOutput where
  Items : List Item
deriving DecidableEq, Repr

/-- The scan part of `*dynamodb.DynamoDB`, which is all `GetUserByEmail` uses of `repo.Client`,
over a table state `τ`. -/
structure DynamoDBScan (τ : Type) where
  Scan : ScanInput → τ → ScanOutput × Option Error

/-- The method `GetUserByEmail` of `DynamoDBRepository`. The returned `*models.UserDetails` is an
`Option`, `none` being the `nil` pointer. Unmarshalling an item into `models.UserDetails` is
the parameter `unmarshalUser`. A scan without items returns `nil, nil`: the source marks that
line `UserDetails not found`. -/
def GetUserByEmail {τ : Type} (client : DynamoDBScan τ)
    (unmarshalUser : Item → Except Error UserDetails) (email : String) (db : τ) :
    Option UserDetails × Option Error :=
  let input : ScanInput :=
    { TableName := usersTable, Filter := ("email", marshalString email) }
  let (result, err) := client.Scan input db
  match err with
  | some e => (none, some e)
  | none =>
    match result.Items with
    | [] => (none, none)
    | item :: _ =>
      match unmarshalUser item with
      | .error e => (none, some e)
      | .ok user => (some user, none)

/-- The in-memory users table: `Scan` succeeds with the items that pass the filter. -/
def memScanClient : DynamoDBScan (List Item) where
  Scan := fun input table => ({ Items := table.filter (satisfiesKey [input.Filter]) }, none)

/-! ## internal/middleware/validation/loginvalidation.go -/

/-- The class `\S` of the regular expression: any character but tab, newline, form feed,
carriage return and space. -/
def nonSpace (c : Char) : Bool :=
  !(c = Char.ofNat 9 || c = Char.ofNat 10 || c = Char.ofNat 12 || c = Char.ofNat 13 || c = ' ')

/-- The tail `\S+\.\S+$` of the pattern on the characters after the `@`: no space character at
all, and a dot that is neither the first nor the last character. -/
def matchesDomain (cs : List Char) : Bool :=
  cs.all nonSpace && ((cs.drop 1).dropLast).contains '.'

/-- The match `emailRegex.MatchString` for the pattern `^.+@\S+\.\S+$`: some `@` has a
non-empty part without newline before it and a part matching `\S+\.\S+` after it. -/
def emailRegexMatch (s : String) : Bool :=
  let cs := s.toList
  (List.range cs.length).any (fun i =>
    decide (0 < i) && decide (cs.get? i = some '@')
      && (cs.take i).all (fun c => !(c = Char.ofNat 10))
      && matchesDomain (cs.drop (i + 1)))

/-- The function `ValidateLogin`: `Email` is `required` and must pass `email_regex`, `Password`
is `required`. The error stands for the validator's field errors. -/
def ValidateLogin (login : LoginCredentials) : Option Error :=
  if login.Email = "" ∨ emailRegexMatch login.Email = false ∨ login.Password = "" then
    some "validation failed"
  else none

/-! ## internal/handlers/login/loginhandler.go -/

/-- The interface `repository.LoginUserRepo`, as far as the login handler calls it. -/
structure LoginUserRepo (ω : Type) where
  GetUserByEmail : String → ω → (Option UserDetails × Option Error) × ω

/-- The interface `authentication.TokenService`. -/
structure TokenService (ω : Type) where
  GenerateToken : String → ω → (String × Option Error) × ω

/-- The interface `services.PasswordService`, as far as the login handler calls it. -/
structure PasswordService (ω : Type) where
  CompareHashAndPassword : String → String → ω → Option Error × ω

/-- The struct `LoginDeps`. -/
structure LoginDeps (ω : Type) where
  UserRepo : LoginUserRepo ω
  TokenService : TokenService ω
  PasswordService : PasswordService ω

/-- The collaborator calls a login run makes, in order. -/
inductive LoginCall where
  | GetUserByEmail (email : String)
  | CompareHashAndPassword (hashedPassword password : String)
  | GenerateToken (userID : String)
deriving DecidableEq, Repr

/-- How a handler run ends: with a response written, or with a Go runtime panic before any
response is written. -/
inductive Exit where
  | responded (response : Response)
  | panicked (value : String)
deriving DecidableEq, Repr

/-- The result of one login run. -/
structure LoginOutcome (ω : Type) where
  exit : Exit
  calls : List LoginCall
  state : ω

/-- The panic of dereferencing a `nil` pointer. -/
def nilDereference : String := "runtime error: invalid memory address or nil pointer dereference"

/-- The handler `LoginHandler`; `body` is the result of decoding the request body. After a
`GetUserByEmail` without error the handler reads `user.PasswordHashed`, which panics for the
`nil` user. -/
def LoginHandler {ω : Type} (deps : LoginDeps ω) (body : Option LoginCredentials) (st : ω) :
    LoginOutcome ω :=
  match body with
  | none =>
    { exit := Exit.responded (httpError "Invalid request" 400), calls := [], state := st }
  | some lc =>
    match ValidateLogin lc with
    | some _ =>
      { exit := Exit.responded (httpError "Invalid email or password" 400), calls := []
        state := st }
    | none =>
      let ((user, err), st1) := deps.UserRepo.GetUserByEmail lc.Email st
      match err with
      | some _ =>
        { exit := Exit.responded (httpError "Server error" 500)
          calls := [LoginCall.GetUserByEmail lc.Email], state := st1 }
      | none =>
        match user with
        | none =>
          { exit := Exit.panicked nilDereference
            calls := [LoginCall.GetUserByEmail lc.Email], state := st1 }
        | some user =>
          let (err, st2) :=
            deps.PasswordService.CompareHashAndPassword user.PasswordHashed lc.Password st1
          match err with
          | some _ =>
            { exit := Exit.responded (httpError "Invalid credentials" 401)
              calls := [LoginCall.GetUserByEmail lc.Email,
                        LoginCall.CompareHashAndPassword user.PasswordHashed lc.Password]
              state := st2 }
          | none =>
            let ((token, err), st3) := deps.TokenService.GenerateToken user.UserID st2
            match err with
            | some _ =>
              { exit := Exit.responded (httpError "Failed to generate token" 500)
                calls := [LoginCall.GetUserByEmail lc.Email,
                          LoginCall.CompareHashAndPassword user.PasswordHashed lc.Password,
                          LoginCall.GenerateToken user.UserID]
                state := st3 }
            | none =>
              let response : LoginResponse := { Token := token }
              { exit := Exit.responded
                  { Code := 200, ContentType := "application/json"
                    Body := ResponseBody.json [("token", JSONValue.str response.Token)] }
                calls := [LoginCall.GetUserByEmail lc.Email,
                          LoginCall.CompareHashAndPassword user.PasswordHashed lc.Password,
                          LoginCall.GenerateToken user.UserID]
                state := st3 }

/-- Login dependencies for sample runs: the user repository is `GetUserByEmail` over the
in-memory users table, with an unmarshaller that reads the three attributes the handler
needs; the password and token services are the mocks of the handler test with configured
results. -/
def sampleLoginDeps (compareErr : Option Error) (token : String × Option Error) :
    LoginDeps (List Item) :=
  { UserRepo :=
      { GetUserByEmail := fun email table =>
          (GetUserByEmail memScanClient
            (fun item =>
              match unmarshalString (item.lookup "UserID"),
                    unmarshalString (item.lookup "email"),
                    unmarshalString (item.lookup "password_hashed") with
              | .ok userID, .ok mail, .ok hashed =>
                .ok { UserID := userID, Email := mail, Password := "", PasswordHashed := hashed,
                      Name := "", Gender := "", Age := 0, Latitude := 0, Longitude := 0 }
              | _, _, _ => .error "UnmarshalTypeError")
            email table, table) }
    TokenService := { GenerateToken := fun _ table => (token, table) }
    PasswordService := { CompareHashAndPassword := fun _ _ table => (compareErr, table) } }

/-- The credentials of the test case "user not found". -/
def missingUser : LoginCredentials := { Email := "missing@example.com", Password := "password" }

/-- A users table with the user of the test case "successful login". -/
def sampleUsers : List Item :=
  [[("UserID", AttributeValue.S "123"), ("email", AttributeValue.S "user@example.com"),
    ("password_hashed", AttributeValue.S "hashedpassword")]]

/-! ## internal/middleware/authentication: token.go and jwt.go -/

/-- The struct `CustomClaims`; of the embedded `jwt.StandardClaims` the code sets `ExpiresAt`. -/
structure CustomClaims where
  UserID : String
  ExpiresAt : Int
deriving DecidableEq, Repr

/-- The part of the jwt library the code uses (HS256). `SignedString claims key` is
`jwt.NewWithClaims(jwt.SigningMethodHS256, claims).SignedString(key)`;
`ParseWithClaims tokenString key now` is `jwt.ParseWithClaims` with a key function that
returns `key`, giving the claims read from the token, `token.Valid` and the error. -/
structure JWTLibrary where
  SignedString : CustomClaims → String → String × Option Error
  ParseWithClaims : String → String → Int → CustomClaims × Bool × Option Error

/-- The call `os.Getenv`: the value of the variable, the empty string when it is unset. -/
def Getenv (env : String → Option String) (name : String) : String :=
  (env name).getD ""

/-- The key `GenerateToken` signs with: the value of `JWT_KEY`, or `quick_match` when that is
empty. -/
def signingKey (env : String → Option String) : String :=
  let jwtkey := Getenv env "JWT_KEY"
  if jwtkey = "" then "quick_match" else jwtkey

/-- The key the key function of `JWTMiddleware` returns: the literal `quick_match`. -/
def verificationKey : String := "quick_match"

/-- The method `GenerateToken` of `JWTTokenService`; `now` is `time.Now()` in Unix seconds, the
token expires 24 hours later. -/
def GenerateToken (jwt : JWTLibrary) (env : String → Option String) (now : Int)
    (userID : String) : String × Option Error :=
  let jk := signingKey env
  let expirationTime := now + 24 * 3600
  let claims : CustomClaims := { UserID := userID, ExpiresAt := expirationTime }
  let (tokenString, err) := jwt.SignedString claims jk
  match err with
  | some e => ("", some e)
  | none => (tokenString, err)

/-- The function `extractToken` on the value of the `Authorization` header: the rest after
`Bearer `, or the empty string. -/
def extractToken (bearerToken : String) : String :=
  if "Bearer ".toList.isPrefixOf bearerToken.toList then
    String.mk (bearerToken.toList.drop 7)
  else ""

/-- What the middleware does with a request: answer it itself, or hand it to the next handler
with `UserID` in the request context. -/
inductive Guarded where
  | rejected (response : Response)
  | next (UserID : String)
deriving DecidableEq, Repr

/-- The middleware `JWTMiddleware` on a request with the given `Authorization` header value. -/
def JWTMiddleware (jwt : JWTLibrary) (now : Int) (authorization : String) : Guarded :=
  let tokenString := extractToken authorization
  if tokenString = "" then
    Guarded.rejected (httpError "Authorization header is missing or invalid" 401)
  else
    let (claims, valid, err) := jwt.ParseWithClaims tokenString verificationKey now
    if err ≠ none ∨ valid = false then
      Guarded.rejected
        (httpError ("Invalid or expired token: " ++ err.getD "<nil>") 401)
    else
      Guarded.next claims.UserID

/-- A transparent stand-in for the jwt library in sample runs: the token is the key, a dot and
the user id, and it parses as valid under a key exactly when it starts with that key and a
dot. It stands for the property of HS256 that a signature verifies under the signing key
only. -/
def plainJWT : JWTLibrary where
  SignedString := fun claims key => (key ++ "." ++ claims.UserID, none)
  ParseWithClaims := fun tokenString key _ =>
    if (key ++ ".").toList.isPrefixOf tokenString.toList then
      ({ UserID := String.mk (tokenString.toList.drop (key.length + 1)), ExpiresAt := 0 },
        true, none)
    else ({ UserID := "", ExpiresAt := 0 }, false, some "signature is invalid")

/-- A process environment in which only `JWT_KEY` may be set. -/
def envWith (jwtKey : Option String) : String → Option String :=
  fun name => if name = "JWT_KEY" then jwtKey else none

/-! ## Likes between two users -/

/-- The acting user and the target of a decodable, authenticated like request. -/
def Request.likeDirection (r : Request) : Option (String × String) :=
  match r.Body, r.UserID with
  | some body, some UserID =>
    if body.Preference = true then some (UserID, body.SwipedUserID) else none
  | _, _ => none

/-- The direction of a request when it is a like between `A` and `B`. -/
def Request.pairLike (A B : String) (r : Request) : Option (String × String) :=
  if r.between A B = true then r.likeDirection else none

/-- Whether a direction is one of the two directions between `A` and `B`. -/
def inPair (A B : String) (d : String × String) : Bool :=
  decide (d = (A, B) ∨ d = (B, A))

/-- The directions of the stored likes between `A` and `B`. -/
def pairLikes (A B : String) (records : List Swipe) : List (String × String) :=
  (records.filter (fun r => r.Preference && inPair A B (r.UserID, r.SwipedUserID))).map
    (fun r => (r.UserID, r.SwipedUserID))

/-! # Theorems -/

/-! ## The store model -/

/-- Marshalling a string attribute loses nothing: distinct strings give distinct values. -/
theorem marshalString_inj (a b : String) : marshalString a = marshalString b ↔ a = b := by
  unfold marshalString
  by_cases ha : a = "" <;> by_cases hb : b = "" <;> simp [ha, hb]
  exact fun h => hb h.symm

/-- A marshalled record satisfies the key condition of `CheckSwipeMatch a b` exactly when it is
a swipe of `a` on `b`. -/
theorem satisfiesKey_MarshalMap (a b : String) (r : Swipe) :
    satisfiesKey (checkSwipeMatchQuery a b).KeyCondition (MarshalMap r)
      = decide (r.UserID = a ∧ r.SwipedUserID = b) := by
  simp [satisfiesKey, checkSwipeMatchQuery, MarshalMap, List.lookup, marshalString_inj]
  exact Bool.and_comm _ _

/-- Unmarshalling the `preference` projection of a marshalled record succeeds and yields its
preference; the other fields keep their zero values. -/
theorem UnmarshalMap_project_MarshalMap (r : Swipe) :
    UnmarshalMap (project "preference" (MarshalMap r))
      = .ok { UserID := "", SwipedUserID := "", Preference := r.Preference,
              Matched := false, MatchID := "" } := by
  simp [UnmarshalMap, project, MarshalMap, List.filter, List.lookup, unmarshalString, unmarshalBool]

/-- The loop over projected records finds a match exactly when one of them is a like. -/
theorem scanItems_projected (rs : List Swipe) :
    scanItems (rs.map (fun r => project "preference" (MarshalMap r)))
      = (rs.any (fun r => r.Preference), none) := by
  induction rs with
  | nil => rfl
  | cons r rest ih =>
    simp only [List.map_cons, scanItems, UnmarshalMap_project_MarshalMap, List.any_cons]
    cases hp : r.Preference
    · simpa using ih
    · simp

/-- Over the in-memory table, `CheckSwipeMatch` computes `hasLiked` and returns no error. -/
theorem memRepo_CheckSwipeMatch (records : List Swipe) (source target : String) :
    memRepo.CheckSwipeMatch source target (records.map MarshalMap)
      = (hasLiked records source target, none) := by
  have hitems : (memClient.Query (checkSwipeMatchQuery source target) (records.map MarshalMap)).1.Items
      = (records.filter (fun r => decide (r.UserID = source ∧ r.SwipedUserID = target))).map
          (fun r => project "preference" (MarshalMap r)) := by
    simp only [memClient, List.filter_map, List.map_map]
    have : (satisfiesKey (checkSwipeMatchQuery source target).KeyCondition ∘ MarshalMap)
        = (fun r => decide (r.UserID = source ∧ r.SwipedUserID = target)) := by
      funext r; exact satisfiesKey_MarshalMap source target r
    rw [this]
    rfl
  have herr : (memClient.Query (checkSwipeMatchQuery source target) (records.map MarshalMap)).2
      = none := rfl
  have key : memRepo.CheckSwipeMatch source target (records.map MarshalMap)
      = (if (memClient.Query (checkSwipeMatchQuery source target)
              (records.map MarshalMap)).1.Items.length = 0 then (false, none)
         else match (memClient.Query (checkSwipeMatchQuery source target)
              (records.map MarshalMap)).2 with
           | some e => (false, some e)
           | none => scanItems (memClient.Query (checkSwipeMatchQuery source target)
              (records.map MarshalMap)).1.Items) := rfl
  rw [key, herr, hitems]
  simp only [scanItems_projected]
  have hany : hasLiked records source target
      = (records.filter (fun r => decide (r.UserID = source ∧ r.SwipedUserID = target))).any
          (fun r => r.Preference) := by
    simp [hasLiked, List.any_filter]
  rw [hany]
  split_ifs with h
  · rw [List.length_eq_zero] at h
    simp only [List.map_eq_nil_iff] at h
    rw [h]; rfl
  · rfl

/-- The reading of `hasLiked`: some stored record is a like of `source` for `target`. -/
theorem hasLiked_iff (records : List Swipe) (source target : String) :
    hasLiked records source target = true
      ↔ ∃ r ∈ records, r.UserID = source ∧ r.SwipedUserID = target ∧ r.Preference = true := by
  simp [hasLiked, and_assoc]

/-- The lookup of the in-memory swipe service: `hasLiked`, and the store is left as it was. -/
theorem memDeps_CheckSwipeMatch (records : List Swipe) (source target : String) :
    memDeps.SwipeRepo.CheckSwipeMatch source target (records.map MarshalMap)
      = ((hasLiked records source target, none), records.map MarshalMap) := by
  show (memRepo.CheckSwipeMatch source target (records.map MarshalMap), records.map MarshalMap) = _
  rw [memRepo_CheckSwipeMatch]

/-- The insert of the in-memory swipe service succeeds and appends the record. -/
theorem memDeps_InsertSwipeRecord (records : List Swipe) (s : Swipe) :
    memDeps.SwipeRepo.InsertSwipeRecord s (records.map MarshalMap)
      = (none, (records ++ [s]).map MarshalMap) := by
  simp [memDeps, NewSwipeService, DynamoDBRepository.InsertSwipeRecord, memRepo, memClient]

/-! ## Match Detector (`CheckSwipeMatch`) -/

/-- C9: over the store model (the query succeeds with the stored records of the pair),
`CheckSwipeMatch source target` returns no error, and returns `true` exactly when some stored
record has `UserID = source`, `SwipedUserID = target` and a true preference, wherever that
record stands among the records of the pair; with no record for the pair it returns
`(false, nil)`. -/
theorem C9_CheckSwipeMatch_true_iff_like_stored (records : List Swipe) (source target : String) :
    ∃ b, memRepo.CheckSwipeMatch source target (records.map MarshalMap) = (b, none)
      ∧ (b = true ↔ ∃ r ∈ records,
            r.UserID = source ∧ r.SwipedUserID = target ∧ r.Preference = true)
      ∧ ((∀ r ∈ records, ¬ (r.UserID = source ∧ r.SwipedUserID = target)) → b = false) := by
  refine ⟨hasLiked records source target, memRepo_CheckSwipeMatch records source target,
    hasLiked_iff records source target, ?_⟩
  intro hnone
  cases h : hasLiked records source target
  · rfl
  · obtain ⟨r, hr, h1, h2, _⟩ := (hasLiked_iff records source target).1 h
    exact absurd ⟨h1, h2⟩ (hnone r hr)

/-- Whenever the client reports a failed query next to an output without items, `CheckSwipeMatch`
answers `(false, nil)`: the emptiness test precedes the error test. -/
theorem CheckSwipeMatch_failed_query {σ : Type} (repo : DynamoDBRepository σ)
    (swipedUserID currentUserID : String) (db : σ) (e : Error)
    (hq : repo.Client.Query (checkSwipeMatchQuery swipedUserID currentUserID) db
            = ({ Items := [] }, some e)) :
    repo.CheckSwipeMatch swipedUserID currentUserID db = (false, none) := by
  simp [DynamoDBRepository.CheckSwipeMatch, hq]

/-- C10 (fails on the code): with the store down, the query behind
`CheckSwipeMatch("user2", "user1")` fails with a request error, and `CheckSwipeMatch` returns
`(false, nil)` instead of that error. -/
theorem C10_failed_query_reported_as_no_match :
    downClient.Query (checkSwipeMatchQuery "user2" "user1") ()
        = ({ Items := [] }, some "RequestError: send request failed")
      ∧ (DynamoDBRepository.mk downClient).CheckSwipeMatch "user2" "user1" () = (false, none) := by
  constructor
  · rfl
  · decide

/-! ## Swipe Recorder (`SwipeHandler`) -/

/-- C1: for an authenticated like request on which `CheckSwipeMatch(target, actingUser)` returns
`true` without error, the handler calls the lookup, mints an id, and passes to
`InsertSwipeRecord` the record with the context user, `Matched = true` and the minted id as
`MatchID` (whatever `matchId` the body carried); when that insert succeeds the response is
`writeJSON` of `matched = true` with that same id, which for a non-empty id is the JSON object
with members `matched: true` and `matchId`. -/
theorem C1_like_with_match_records_and_reports_minted_id {σ : Type} (deps : SwipeDeps σ)
    (uuid : Nat → String) (body : Swipe) (UserID : String) (w : World σ) (store1 : σ)
    (hlike : body.Preference = true)
    (hmatch : deps.SwipeRepo.CheckSwipeMatch body.SwipedUserID UserID w.store
                = ((true, none), store1)) :
    (SwipeHandler deps uuid (swipeRequest UserID body) w).calls
        = [Call.CheckSwipeMatch body.SwipedUserID UserID, Call.uuidNew,
           Call.InsertSwipeRecord
             { UserID := UserID, SwipedUserID := body.SwipedUserID, Preference := true,
               Matched := true, MatchID := uuid w.minted }]
      ∧ ((deps.SwipeRepo.InsertSwipeRecord
            { UserID := UserID, SwipedUserID := body.SwipedUserID, Preference := true,
              Matched := true, MatchID := uuid w.minted } store1).1 = none →
          (SwipeHandler deps uuid (swipeRequest UserID body) w).response
              = writeJSON { Matched := true, MatchID := uuid w.minted }
            ∧ (uuid w.minted ≠ "" →
                (SwipeHandler deps uuid (swipeRequest UserID body) w).response
                  = { Code := 200, ContentType := "application/json",
                      Body := ResponseBody.json
                        [("matched", JSONValue.bool true),
                         ("matchId", JSONValue.str (uuid w.minted))] })) := by
  obtain ⟨bu, bt, bp, bm, bi⟩ := body
  simp only at hlike hmatch
  subst hlike
  constructor
  · simp only [SwipeHandler, swipeRequest, hmatch]
    cases hins : deps.SwipeRepo.InsertSwipeRecord
      { UserID := UserID, SwipedUserID := bt, Preference := true,
        Matched := true, MatchID := uuid w.minted } store1 with
    | mk err store2 => cases err <;> simp [hins]
  · intro hok
    cases hins : deps.SwipeRepo.InsertSwipeRecord
      { UserID := UserID, SwipedUserID := bt, Preference := true,
        Matched := true, MatchID := uuid w.minted } store1 with
    | mk err store2 =>
      rw [hins] at hok
      simp only at hok
      subst hok
      have hresp : (SwipeHandler deps uuid (swipeRequest UserID ⟨bu, bt, true, bm, bi⟩) w).response
          = writeJSON { Matched := true, MatchID := uuid w.minted } := by
        simp [SwipeHandler, swipeRequest, hmatch, hins]
      refine ⟨hresp, fun hne => ?_⟩
      rw [hresp]
      simp [writeJSON, encodeSwipeResponse, hne]

/-- Witness for C1: the test case "like swipe with match", over the in-memory store. -/
theorem C1_like_with_match_witness :
    likeUser2.Preference = true
      ∧ memDeps.SwipeRepo.CheckSwipeMatch likeUser2.SwipedUserID "user1" user2LikedUser1.store
          = ((true, none), user2LikedUser1.store)
      ∧ (SwipeHandler memDeps sampleUuid (swipeRequest "user1" likeUser2) user2LikedUser1).calls
          = [Call.CheckSwipeMatch "user2" "user1", Call.uuidNew,
             Call.InsertSwipeRecord
               { UserID := "user1", SwipedUserID := "user2", Preference := true,
                 Matched := true, MatchID := sampleUuid 0 }] :=
  ⟨rfl, by decide,
    (C1_like_with_match_records_and_reports_minted_id memDeps sampleUuid likeUser2 "user1"
      user2LikedUser1 user2LikedUser1.store rfl (by decide)).1⟩

/-- C6: for an authenticated like request on which `CheckSwipeMatch(target, actingUser)` returns
`false` without error, the handler passes to `InsertSwipeRecord` one record, with
`Matched = false`, mints no id, and when that insert succeeds the response is status 200 with
the JSON object `matched: false` and no `matchId` member. -/
theorem C6_like_without_match_records_unmatched {σ : Type} (deps : SwipeDeps σ)
    (uuid : Nat → String) (body : Swipe) (UserID : String) (w : World σ) (store1 : σ)
    (hlike : body.Preference = true)
    (hcheck : deps.SwipeRepo.CheckSwipeMatch body.SwipedUserID UserID w.store
                = ((false, none), store1)) :
    (SwipeHandler deps uuid (swipeRequest UserID body) w).calls
        = [Call.CheckSwipeMatch body.SwipedUserID UserID,
           Call.InsertSwipeRecord
             { UserID := UserID, SwipedUserID := body.SwipedUserID, Preference := true,
               Matched := false, MatchID := body.MatchID }]
      ∧ (∀ s, Call.InsertSwipeRecord s ∈ (SwipeHandler deps uuid (swipeRequest UserID body) w).calls
            → s.Matched = false)
      ∧ ((deps.SwipeRepo.InsertSwipeRecord
            { UserID := UserID, SwipedUserID := body.SwipedUserID, Preference := true,
              Matched := false, MatchID := body.MatchID } store1).1 = none →
          (SwipeHandler deps uuid (swipeRequest UserID body) w).response
              = { Code := 200, ContentType := "application/json",
                  Body := ResponseBody.json [("matched", JSONValue.bool false)] }
            ∧ (SwipeHandler deps uuid (swipeRequest UserID body) w).response.matchId = none) := by
  obtain ⟨bu, bt, bp, bm, bi⟩ := body
  simp only at hlike hcheck
  subst hlike
  have hcalls : (SwipeHandler deps uuid (swipeRequest UserID ⟨bu, bt, true, bm, bi⟩) w).calls
      = [Call.CheckSwipeMatch bt UserID,
         Call.InsertSwipeRecord ⟨UserID, bt, true, false, bi⟩] := by
    simp only [SwipeHandler, swipeRequest, hcheck]
    cases hins : deps.SwipeRepo.InsertSwipeRecord ⟨UserID, bt, true, false, bi⟩ store1 with
    | mk err store2 => cases err <;> simp [hins]
  refine ⟨hcalls, ?_, ?_⟩
  · intro s hs
    rw [hcalls] at hs
    simp at hs
    rw [hs]
  · intro hok
    cases hins : deps.SwipeRepo.InsertSwipeRecord ⟨UserID, bt, true, false, bi⟩ store1 with
    | mk err store2 =>
      rw [hins] at hok
      simp only at hok
      subst hok
      have hresp : (SwipeHandler deps uuid (swipeRequest UserID ⟨bu, bt, true, bm, bi⟩) w).response
          = { Code := 200, ContentType := "application/json",
              Body := ResponseBody.json [("matched", JSONValue.bool false)] } := by
        simp [SwipeHandler, swipeRequest, hcheck, hins, writeJSON, encodeSwipeResponse]
      refine ⟨hresp, ?_⟩
      rw [hresp]
      rfl

/-- Witness for C6: the test case "like swipe with no match", over the empty store. -/
theorem C6_like_without_match_witness :
    likeUser2.Preference = true
      ∧ memDeps.SwipeRepo.CheckSwipeMatch likeUser2.SwipedUserID "user1" emptyWorld.store
          = ((false, none), emptyWorld.store)
      ∧ (SwipeHandler memDeps sampleUuid (swipeRequest "user1" likeUser2) emptyWorld).calls
          = [Call.CheckSwipeMatch "user2" "user1",
             Call.InsertSwipeRecord
               { UserID := "user1", SwipedUserID := "user2", Preference := true,
                 Matched := false, MatchID := "" }] :=
  ⟨rfl, by decide,
    (C6_like_without_match_records_unmatched memDeps sampleUuid likeUser2 "user1"
      emptyWorld emptyWorld.store rfl (by decide)).1⟩

/-- C7: for an authenticated dislike request, whatever the acting user, the target and the store,
the only collaborator call is one `InsertSwipeRecord`: `CheckSwipeMatch` is not called, no id
is minted, and when the insert succeeds the response is status 200 with the JSON object
`matched: false` and no `matchId` member. -/
theorem C7_dislike_skips_lookup_and_minting {σ : Type} (deps : SwipeDeps σ)
    (uuid : Nat → String) (body : Swipe) (UserID : String) (w : World σ)
    (hdislike : body.Preference = false) :
    (SwipeHandler deps uuid (swipeRequest UserID body) w).calls
        = [Call.InsertSwipeRecord { body with UserID := UserID }]
      ∧ (∀ a b, Call.CheckSwipeMatch a b ∉ (SwipeHandler deps uuid (swipeRequest UserID body) w).calls)
      ∧ Call.uuidNew ∉ (SwipeHandler deps uuid (swipeRequest UserID body) w).calls
      ∧ (SwipeHandler deps uuid (swipeRequest UserID body) w).world.minted = w.minted
      ∧ ((deps.SwipeRepo.InsertSwipeRecord { body with UserID := UserID } w.store).1 = none →
          (SwipeHandler deps uuid (swipeRequest UserID body) w).response
              = { Code := 200, ContentType := "application/json",
                  Body := ResponseBody.json [("matched", JSONValue.bool false)] }
            ∧ (SwipeHandler deps uuid (swipeRequest UserID body) w).response.matchId = none) := by
  obtain ⟨bu, bt, bp, bm, bi⟩ := body
  simp only at hdislike
  subst hdislike
  cases hins : deps.SwipeRepo.InsertSwipeRecord ⟨UserID, bt, false, bm, bi⟩ w.store with
  | mk err store1 =>
    cases err with
    | none =>
      simp [SwipeHandler, swipeRequest, hins, writeJSON, encodeSwipeResponse, Response.matchId,
        List.lookup]
    | some e =>
      simp [SwipeHandler, swipeRequest, hins]

/-- Witness for C7: the test case "dislike swipe", over a store in which the target has liked
the acting user. -/
theorem C7_dislike_witness :
    dislikeUser2.Preference = false
      ∧ (SwipeHandler memDeps sampleUuid (swipeRequest "user1" dislikeUser2) user2LikedUser1).calls
          = [Call.InsertSwipeRecord { dislikeUser2 with UserID := "user1" }] :=
  ⟨rfl, (C7_dislike_skips_lookup_and_minting memDeps sampleUuid dislikeUser2 "user1"
      user2LikedUser1 rfl).1⟩

/-- C8 (fails on the code): the `matched` and `matchId` members of the request body reach the
store. A dislike whose body carries `matched: true, matchId: "forged"` is passed to
`InsertSwipeRecord` with `Matched = true` and that id; a like without match whose body carries
`matchId: "stale"` is passed with `Matched = false` and that id. -/
theorem C8_body_match_fields_reach_the_store :
    (SwipeHandler memDeps sampleUuid
        (swipeRequest "user1" { dislikeUser2 with Matched := true, MatchID := "forged" })
        emptyWorld).calls
      = [Call.InsertSwipeRecord
          { UserID := "user1", SwipedUserID := "user2", Preference := false,
            Matched := true, MatchID := "forged" }]
    ∧ (SwipeHandler memDeps sampleUuid
        (swipeRequest "user1" { likeUser2 with MatchID := "stale" }) emptyWorld).calls
      = [Call.CheckSwipeMatch "user2" "user1",
         Call.InsertSwipeRecord
          { UserID := "user1", SwipedUserID := "user2", Preference := true,
            Matched := false, MatchID := "stale" }] := by
  constructor <;> decide

/-- For a body that carries neither `matched` nor `matchId`, and a non-empty minted id, every
record passed to `InsertSwipeRecord` has a non-empty match id exactly when it is matched. -/
theorem plain_body_matchId_iff_matched {σ : Type} (deps : SwipeDeps σ)
    (uuid : Nat → String) (body : Swipe) (UserID : String) (w : World σ)
    (hm : body.Matched = false) (hi : body.MatchID = "") (hid : uuid w.minted ≠ "")
    (s : Swipe)
    (hs : Call.InsertSwipeRecord s ∈ (SwipeHandler deps uuid (swipeRequest UserID body) w).calls) :
    s.MatchID ≠ "" ↔ s.Matched = true := by
  obtain ⟨bu, bt, bp, bm, bi⟩ := body
  simp only at hm hi
  subst hm hi
  cases bp with
  | false =>
    cases hins : deps.SwipeRepo.InsertSwipeRecord ⟨UserID, bt, false, false, ""⟩ w.store with
    | mk err store1 =>
      cases err <;> simp [SwipeHandler, swipeRequest, hins] at hs <;> subst hs <;> simp
  | true =>
    cases hchk : deps.SwipeRepo.CheckSwipeMatch bt UserID w.store with
    | mk res store1 =>
      obtain ⟨isMatch, err⟩ := res
      cases err with
      | some e => simp [SwipeHandler, swipeRequest, hchk] at hs
      | none =>
        cases isMatch with
        | true =>
          cases hins : deps.SwipeRepo.InsertSwipeRecord
            ⟨UserID, bt, true, true, uuid w.minted⟩ store1 with
          | mk err store2 =>
            cases err <;> simp [SwipeHandler, swipeRequest, hchk, hins] at hs <;> subst hs <;>
              simpa using hid
        | false =>
          cases hins : deps.SwipeRepo.InsertSwipeRecord ⟨UserID, bt, true, false, ""⟩ store1 with
          | mk err store2 =>
            cases err <;> simp [SwipeHandler, swipeRequest, hchk, hins] at hs <;> subst hs <;> simp

/-! ## The handler over the store model -/

/-- The handler on a decodable, authenticated request over the in-memory store, by cases. -/
theorem SwipeHandler_mem (uuid : Nat → String) (UserID : String) (body : Swipe)
    (records : List Swipe) (n : Nat) :
    SwipeHandler memDeps uuid (swipeRequest UserID body)
        { store := records.map MarshalMap, minted := n }
      = if body.Preference = false then
          { response := writeJSON { Matched := false, MatchID := "" }
            calls := [Call.InsertSwipeRecord { body with UserID := UserID }]
            world := { store := (records ++ [{ body with UserID := UserID }]).map MarshalMap,
                       minted := n } }
        else if hasLiked records body.SwipedUserID UserID = true then
          { response := writeJSON { Matched := true, MatchID := uuid n }
            calls := [Call.CheckSwipeMatch body.SwipedUserID UserID, Call.uuidNew,
                      Call.InsertSwipeRecord
                        { body with UserID := UserID, MatchID := uuid n, Matched := true }]
            world := { store := (records ++ [{ body with UserID := UserID, MatchID := uuid n,
                                                         Matched := true }]).map MarshalMap,
                       minted := n + 1 } }
        else
          { response := writeJSON { Matched := false, MatchID := "" }
            calls := [Call.CheckSwipeMatch body.SwipedUserID UserID,
                      Call.InsertSwipeRecord { body with UserID := UserID, Matched := false }]
            world := { store := (records ++ [{ body with UserID := UserID,
                                                         Matched := false }]).map MarshalMap,
                       minted := n } } := by
  obtain ⟨bu, bt, bp, bm, bi⟩ := body
  cases bp with
  | false =>
    simp only [SwipeHandler, swipeRequest, memDeps_InsertSwipeRecord]
    simp
  | true =>
    simp only [SwipeHandler, swipeRequest, memDeps_CheckSwipeMatch]
    cases h : hasLiked records bt UserID <;> simp [memDeps_InsertSwipeRecord]

/-- No record of the direction, no like of the direction. -/
theorem hasLiked_eq_false_of_no_record (records : List Swipe) (source target : String)
    (h : ∀ r ∈ records, ¬ (r.UserID = source ∧ r.SwipedUserID = target)) :
    hasLiked records source target = false := by
  cases hl : hasLiked records source target
  · rfl
  · obtain ⟨r, hr, h1, h2, _⟩ := (hasLiked_iff records source target).1 hl
    exact absurd ⟨h1, h2⟩ (h r hr)

/-- A like just appended is found. -/
theorem hasLiked_append_like (records : List Swipe) (r : Swipe) (hr : r.Preference = true) :
    hasLiked (records ++ [r]) r.UserID r.SwipedUserID = true := by
  rw [hasLiked_iff]
  exact ⟨r, by simp, rfl, rfl, hr⟩

/-- C2: over the store model, for users `A` and `B` with no stored record between them,
serving "A likes B" answers `matched: false` (no match id), and serving "B likes A" next
answers `matched: true` with the id the generator produced for that request. -/
theorem C2_like_then_like_back_is_matched (uuid : Nat → String) (records : List Swipe)
    (n : Nat) (A B : String) (bodyA bodyB : Swipe)
    (hnone : ∀ r ∈ records, ¬ ((r.UserID = A ∧ r.SwipedUserID = B)
                                ∨ (r.UserID = B ∧ r.SwipedUserID = A)))
    (hA : bodyA.SwipedUserID = B ∧ bodyA.Preference = true)
    (hB : bodyB.SwipedUserID = A ∧ bodyB.Preference = true)
    (hid : uuid n ≠ "") :
    serve memDeps uuid [swipeRequest A bodyA, swipeRequest B bodyB]
        { store := records.map MarshalMap, minted := n }
      = [(swipeRequest A bodyA,
            { Code := 200, ContentType := "application/json",
              Body := ResponseBody.json [("matched", JSONValue.bool false)] }),
         (swipeRequest B bodyB,
            { Code := 200, ContentType := "application/json",
              Body := ResponseBody.json [("matched", JSONValue.bool true),
                                         ("matchId", JSONValue.str (uuid n))] })]
      ∧ (serveWorld memDeps uuid [swipeRequest A bodyA, swipeRequest B bodyB]
          { store := records.map MarshalMap, minted := n }).minted = n + 1 := by
  obtain ⟨au, at_, ap, am, ai⟩ := bodyA
  obtain ⟨bu, bt, bp, bm, bi⟩ := bodyB
  obtain ⟨hA1, hA2⟩ := hA
  obtain ⟨hB1, hB2⟩ := hB
  simp only at hA1 hA2 hB1 hB2
  subst hA1 hA2 hB1 hB2
  have h1 : hasLiked records at_ bt = false :=
    hasLiked_eq_false_of_no_record records at_ bt (fun r hr h => hnone r hr (Or.inr h))
  have h2 : hasLiked (records ++ [⟨bt, at_, true, false, ai⟩]) bt at_ = true :=
    hasLiked_append_like records ⟨bt, at_, true, false, ai⟩ rfl
  have e1 := SwipeHandler_mem uuid bt ⟨au, at_, true, am, ai⟩ records n
  simp only [h1, Bool.true_eq_false, Bool.false_eq_true, if_false] at e1
  have e2 := SwipeHandler_mem uuid at_ ⟨bu, bt, true, bm, bi⟩
    (records ++ [⟨bt, at_, true, false, ai⟩]) n
  simp only [h2, Bool.true_eq_false, if_false, if_true] at e2
  simp only [serve, serveWorld, e1, e2]
  simp [writeJSON, encodeSwipeResponse, hid]

/-- Witness for C2: `user1` likes `user2`, then `user2` likes `user1`, from the empty store. -/
theorem C2_like_then_like_back_witness :
    (∀ r ∈ ([] : List Swipe), ¬ ((r.UserID = "user1" ∧ r.SwipedUserID = "user2")
                                ∨ (r.UserID = "user2" ∧ r.SwipedUserID = "user1")))
      ∧ (likeUser2.SwipedUserID = "user2" ∧ likeUser2.Preference = true)
      ∧ (({ likeUser2 with SwipedUserID := "user1" } : Swipe).SwipedUserID = "user1"
          ∧ ({ likeUser2 with SwipedUserID := "user1" } : Swipe).Preference = true)
      ∧ sampleUuid 0 ≠ ""
      ∧ (serveWorld memDeps sampleUuid
          [swipeRequest "user1" likeUser2,
           swipeRequest "user2" { likeUser2 with SwipedUserID := "user1" }]
          { store := ([] : List Swipe).map MarshalMap, minted := 0 }).minted = 0 + 1 :=
  ⟨by simp, ⟨rfl, rfl⟩, ⟨rfl, rfl⟩, by decide,
    (C2_like_then_like_back_is_matched sampleUuid [] 0 "user1" "user2" likeUser2
      { likeUser2 with SwipedUserID := "user1" } (by simp) ⟨rfl, rfl⟩ ⟨rfl, rfl⟩
      (by decide)).2⟩

/-- C4 (as stated, fails on the code): `user2` likes `user1`, then `user1` likes `user2`. The
store then holds the two decisions, the later one matched; the earlier one is not updated, so
the two decisions do not carry the same match id. -/
theorem C4_counterexample_match_id_not_on_both_sides :
    ∃ earlier later : Swipe,
      (serveWorld memDeps sampleUuid
          [swipeRequest "user2" { likeUser2 with SwipedUserID := "user1" },
           swipeRequest "user1" likeUser2] emptyWorld).store
        = [MarshalMap earlier, MarshalMap later]
      ∧ (earlier.UserID = "user2" ∧ earlier.SwipedUserID = "user1" ∧ earlier.Preference = true)
      ∧ (later.UserID = "user1" ∧ later.SwipedUserID = "user2" ∧ later.Preference = true)
      ∧ later.Matched = true
      ∧ earlier.MatchID ≠ later.MatchID :=
  ⟨Swipe.mk "user2" "user1" true false "", Swipe.mk "user1" "user2" true true (sampleUuid 0),
   by decide, ⟨rfl, rfl, rfl⟩, ⟨rfl, rfl, rfl⟩, rfl, by decide⟩

/-- C4 (amended): over the store model, for `A` and `B` with no stored record between them, when
`B` records a like of `A` and `A` then records a like of `B`, the store gains exactly the two
decisions: the earlier `B`-to-`A` one with `matched = false` and the `matchId` of its own
request body, never updated; the later `A`-to-`B` one with `matched = true` and the freshly
generated id. The id is stored on the later side only. -/
theorem C4_match_id_on_later_decision_only (uuid : Nat → String) (records : List Swipe)
    (n : Nat) (A B : String) (bodyA bodyB : Swipe)
    (hnone : ∀ r ∈ records, ¬ ((r.UserID = A ∧ r.SwipedUserID = B)
                                ∨ (r.UserID = B ∧ r.SwipedUserID = A)))
    (hA : bodyA.SwipedUserID = B ∧ bodyA.Preference = true)
    (hB : bodyB.SwipedUserID = A ∧ bodyB.Preference = true) :
    serveWorld memDeps uuid [swipeRequest B bodyB, swipeRequest A bodyA]
        { store := records.map MarshalMap, minted := n }
      = { store := (records ++
            [({ UserID := B, SwipedUserID := A, Preference := true, Matched := false,
                MatchID := bodyB.MatchID } : Swipe),
             ({ UserID := A, SwipedUserID := B, Preference := true, Matched := true,
                MatchID := uuid n } : Swipe)]).map MarshalMap,
          minted := n + 1 } := by
  obtain ⟨au, at_, ap, am, ai⟩ := bodyA
  obtain ⟨bu, bt, bp, bm, bi⟩ := bodyB
  obtain ⟨hA1, hA2⟩ := hA
  obtain ⟨hB1, hB2⟩ := hB
  simp only at hA1 hA2 hB1 hB2
  subst hA1 hA2 hB1 hB2
  have h1 : hasLiked records bt at_ = false :=
    hasLiked_eq_false_of_no_record records bt at_ (fun r hr h => hnone r hr (Or.inl h))
  have h2 : hasLiked (records ++ [⟨at_, bt, true, false, bi⟩]) at_ bt = true :=
    hasLiked_append_like records ⟨at_, bt, true, false, bi⟩ rfl
  have e1 := SwipeHandler_mem uuid at_ ⟨bu, bt, true, bm, bi⟩ records n
  simp only [h1, Bool.true_eq_false, Bool.false_eq_true, if_false] at e1
  have e2 := SwipeHandler_mem uuid bt ⟨au, at_, true, am, ai⟩
    (records ++ [⟨at_, bt, true, false, bi⟩]) n
  simp only [h2, Bool.true_eq_false, if_false, if_true] at e2
  simp only [serveWorld, e1, e2]
  simp

/-- Witness for C4 (amended): `user2` likes `user1`, then `user1` likes `user2`, from the empty
store. -/
theorem C4_match_id_on_later_decision_only_witness :
    (∀ r ∈ ([] : List Swipe), ¬ ((r.UserID = "user1" ∧ r.SwipedUserID = "user2")
                                ∨ (r.UserID = "user2" ∧ r.SwipedUserID = "user1")))
      ∧ (likeUser2.SwipedUserID = "user2" ∧ likeUser2.Preference = true)
      ∧ (({ likeUser2 with SwipedUserID := "user1" } : Swipe).SwipedUserID = "user1"
          ∧ ({ likeUser2 with SwipedUserID := "user1" } : Swipe).Preference = true)
      ∧ serveWorld memDeps sampleUuid
          [swipeRequest "user2" { likeUser2 with SwipedUserID := "user1" },
           swipeRequest "user1" likeUser2]
          { store := ([] : List Swipe).map MarshalMap, minted := 0 }
        = { store := (([] : List Swipe) ++
              [({ UserID := "user2", SwipedUserID := "user1", Preference := true,
                  Matched := false,
                  MatchID := ({ likeUser2 with SwipedUserID := "user1" } : Swipe).MatchID }
                  : Swipe),
               ({ UserID := "user1", SwipedUserID := "user2", Preference := true,
                  Matched := true, MatchID := sampleUuid 0 } : Swipe)]).map MarshalMap,
            minted := 0 + 1 } :=
  ⟨by simp, ⟨rfl, rfl⟩, ⟨rfl, rfl⟩,
    C4_match_id_on_later_decision_only sampleUuid [] 0 "user1" "user2" likeUser2
      { likeUser2 with SwipedUserID := "user1" } (by simp) ⟨rfl, rfl⟩ ⟨rfl, rfl⟩⟩

/-- C3 (as stated, fails on the code): `user1` likes `user2`, `user2` likes `user1`, and `user1`
likes `user2` once more. The second and the third response are both matched, each with an id
of its own: two match ids for one pair. -/
theorem C3_counterexample_repeated_like_mints_again :
    (serve memDeps sampleUuid
        [swipeRequest "user1" likeUser2,
         swipeRequest "user2" { likeUser2 with SwipedUserID := "user1" },
         swipeRequest "user1" likeUser2] emptyWorld).map (fun e => (e.2.matched, e.2.matchId))
      = [(false, none), (true, some "m0"), (true, some "m1")]
    ∧ ¬ (matchesBetween "user1" "user2"
          (serve memDeps sampleUuid
            [swipeRequest "user1" likeUser2,
             swipeRequest "user2" { likeUser2 with SwipedUserID := "user1" },
             swipeRequest "user1" likeUser2] emptyWorld) ≤ 1) := by
  constructor <;> decide

/-! ## Sequences of swipes over the store model -/

/-- The `matched` member of an encoded response is the `Matched` field. -/
theorem matched_writeJSON (sp : SwipeResponse) : (writeJSON sp).matched = sp.Matched := by
  obtain ⟨m, i⟩ := sp
  by_cases hi : i = "" <;> cases m <;>
    simp [writeJSON, encodeSwipeResponse, Response.matched, List.lookup, hi]

/-- A stored like is a stored record of its direction. -/
theorem mem_recordDirections_of_hasLiked (records : List Swipe) (source target : String)
    (h : hasLiked records source target = true) :
    (source, target) ∈ recordDirections records := by
  obtain ⟨r, hr, h1, h2, _⟩ := (hasLiked_iff records source target).1 h
  simp only [recordDirections, List.mem_map]
  exact ⟨r, hr, by rw [h1, h2]⟩

/-- One request over the store model: the store stays a list of marshalled records, a served
swipe adds one record of its own direction, and a matched response needs a stored record of
the opposite direction. -/
theorem SwipeHandler_mem_step (uuid : Nat → String) (r : Request) (records : List Swipe)
    (n : Nat) :
    ∃ records' n',
      (SwipeHandler memDeps uuid r { store := records.map MarshalMap, minted := n }).world
          = { store := records'.map MarshalMap, minted := n' }
        ∧ recordDirections records' = recordDirections records ++ r.direction.toList
        ∧ ((SwipeHandler memDeps uuid r
              { store := records.map MarshalMap, minted := n }).response.matched = true →
            ∃ u t, r.direction = some (u, t) ∧ (t, u) ∈ recordDirections records) := by
  obtain ⟨body, user⟩ := r
  cases body with
  | none =>
    refine ⟨records, n, rfl, by simp [Request.direction], ?_⟩
    intro h
    simp [SwipeHandler, httpError, Response.matched] at h
  | some body =>
    cases user with
    | none =>
      refine ⟨records, n, rfl, by simp [Request.direction], ?_⟩
      intro h
      simp [SwipeHandler, httpError, Response.matched] at h
    | some u =>
      have e := SwipeHandler_mem uuid u body records n
      rw [swipeRequest] at e
      rw [e]
      by_cases hp : body.Preference = false
      · rw [if_pos hp]
        refine ⟨records ++ [{ body with UserID := u }], n, rfl,
          by simp [recordDirections, Request.direction], ?_⟩
        intro h
        simp [matched_writeJSON] at h
      · rw [if_neg hp]
        by_cases hl : hasLiked records body.SwipedUserID u = true
        · rw [if_pos hl]
          refine ⟨records ++ [{ body with UserID := u, MatchID := uuid n, Matched := true }],
            n + 1, rfl, by simp [recordDirections, Request.direction], ?_⟩
          intro _
          exact ⟨u, body.SwipedUserID, rfl,
            mem_recordDirections_of_hasLiked records body.SwipedUserID u hl⟩
        · rw [if_neg hl]
          refine ⟨records ++ [{ body with UserID := u, Matched := false }], n, rfl,
            by simp [recordDirections, Request.direction], ?_⟩
          intro h
          simp [matched_writeJSON] at h

/-- Counting matches, one log entry at a time. -/
theorem matchesBetween_cons (A B : String) (e : Request × Response)
    (log : List (Request × Response)) :
    matchesBetween A B (e :: log)
      = (if (e.1.between A B && e.2.matched) = true then 1 else 0) + matchesBetween A B log := by
  unfold matchesBetween
  rw [List.filter_cons]
  split_ifs <;> simp [Nat.add_comm]

/-- Requests none of which is between `A` and `B` produce no match for that pair. -/
theorem matchesBetween_serve_eq_zero {σ : Type} (deps : SwipeDeps σ) (uuid : Nat → String)
    (A B : String) (reqs : List Request) (w : World σ)
    (h : ∀ r ∈ reqs, r.between A B = false) :
    matchesBetween A B (serve deps uuid reqs w) = 0 := by
  induction reqs generalizing w with
  | nil => rfl
  | cons r rest ih =>
    rw [serve, matchesBetween_cons, ih _ (fun q hq => h q (List.mem_cons_of_mem _ hq))]
    simp [h r (List.mem_cons_self _ _)]

/-- The directions of a request list, one request at a time. -/
theorem filterMap_direction_cons (r : Request) (rest : List Request) :
    (r :: rest).filterMap Request.direction
      = r.direction.toList ++ rest.filterMap Request.direction := by
  cases h : r.direction <;> simp [List.filterMap_cons, h]

/-- A coarser bound: when no direction is swiped twice at all (neither stored already nor
repeated among the requests), at most one response between `A` and `B` is matched. -/
theorem matchesBetween_serve_le_one (uuid : Nat → String) (A B : String)
    (reqs : List Request) (records : List Swipe) (n : Nat)
    (hnodup : (recordDirections records ++ reqs.filterMap Request.direction).Nodup) :
    matchesBetween A B
      (serve memDeps uuid reqs { store := records.map MarshalMap, minted := n }) ≤ 1 := by
  induction reqs generalizing records n with
  | nil => simp [serve, matchesBetween]
  | cons r rest ih =>
    obtain ⟨records', n', hw, hdir, hmatched⟩ := SwipeHandler_mem_step uuid r records n
    have hnodup' : (recordDirections records' ++ rest.filterMap Request.direction).Nodup := by
      rw [hdir, List.append_assoc, ← filterMap_direction_cons]
      exact hnodup
    rw [serve, matchesBetween_cons, hw]
    by_cases hc : (r.between A B && (SwipeHandler memDeps uuid r
        { store := records.map MarshalMap, minted := n }).response.matched) = true
    · rw [if_pos hc]
      rw [Bool.and_eq_true] at hc
      obtain ⟨hbetween, hm⟩ := hc
      obtain ⟨u, t, hd, hopp⟩ := hmatched hm
      have hboth : (A, B) ∈ recordDirections records' ∧ (B, A) ∈ recordDirections records' := by
        rw [hdir, hd]
        simp only [Request.between, hd, decide_eq_true_eq, Option.some.injEq, Prod.mk.injEq]
          at hbetween
        rcases hbetween with ⟨h1, h2⟩ | ⟨h1, h2⟩
        · subst h1 h2
          exact ⟨by simp, List.mem_append_left _ hopp⟩
        · subst h1 h2
          exact ⟨List.mem_append_left _ hopp, by simp⟩
      have hzero : matchesBetween A B
          (serve memDeps uuid rest { store := records'.map MarshalMap, minted := n' }) = 0 := by
        apply matchesBetween_serve_eq_zero
        intro q hq
        cases hqb : q.between A B
        · rfl
        · exfalso
          simp only [Request.between, decide_eq_true_eq] at hqb
          have hdisj := (List.nodup_append.1 hnodup').2.2
          rcases hqb with h | h
          · exact hdisj hboth.1 (List.mem_filterMap.2 ⟨q, hq, h⟩)
          · exact hdisj hboth.2 (List.mem_filterMap.2 ⟨q, hq, h⟩)
      rw [hzero]
    · rw [if_neg hc, Nat.zero_add]
      exact ih records' n' hnodup'

/-! ## Interleaved requests -/

/-- A request scheduled alone takes its steps back to back: two steps finish it, and response,
calls and world are those of `SwipeHandler`. -/
theorem SwipeHandler_eq_two_steps {σ : Type} (deps : SwipeDeps σ) (uuid : Nat → String)
    (r : Request) (w : World σ) :
    (Thread.step deps uuid (Thread.step deps uuid (Thread.start r) w).1
        (Thread.step deps uuid (Thread.start r) w).2.2).1
        = Thread.finished (SwipeHandler deps uuid r w).response
      ∧ (Thread.step deps uuid (Thread.start r) w).2.1
          ++ (Thread.step deps uuid (Thread.step deps uuid (Thread.start r) w).1
                (Thread.step deps uuid (Thread.start r) w).2.2).2.1
        = (SwipeHandler deps uuid r w).calls
      ∧ (Thread.step deps uuid (Thread.step deps uuid (Thread.start r) w).1
          (Thread.step deps uuid (Thread.start r) w).2.2).2.2
        = (SwipeHandler deps uuid r w).world := by
  obtain ⟨body, user⟩ := r
  cases body with
  | none => simp [Thread.step, SwipeHandler]
  | some body =>
    cases user with
    | none => simp [Thread.step, SwipeHandler]
    | some u =>
      obtain ⟨bu, bt, bp, bm, bi⟩ := body
      cases bp with
      | false =>
        cases hins : deps.SwipeRepo.InsertSwipeRecord ⟨u, bt, false, bm, bi⟩ w.store with
        | mk err store1 => cases err <;> simp [Thread.step, SwipeHandler, hins]
      | true =>
        cases hchk : deps.SwipeRepo.CheckSwipeMatch bt u w.store with
        | mk res store1 =>
          obtain ⟨isMatch, err⟩ := res
          cases err with
          | some e => simp [Thread.step, SwipeHandler, hchk]
          | none =>
            cases isMatch with
            | true =>
              cases hins : deps.SwipeRepo.InsertSwipeRecord
                ⟨u, bt, true, true, uuid w.minted⟩ store1 with
              | mk err store2 => cases err <;> simp [Thread.step, SwipeHandler, hchk, hins]
            | false =>
              cases hins : deps.SwipeRepo.InsertSwipeRecord ⟨u, bt, true, false, bi⟩ store1 with
              | mk err store2 => cases err <;> simp [Thread.step, SwipeHandler, hchk, hins]

/-- The insert of the in-memory swipe service on any store: the marshalled record is appended. -/
theorem memDeps_InsertSwipeRecord_append (db : Store) (s : Swipe) :
    memDeps.SwipeRepo.InsertSwipeRecord s db = (none, db ++ [MarshalMap s]) := rfl

/-- C5: in the interleaving model (each like request is the read of `CheckSwipeMatch` followed by
the write of `InsertSwipeRecord`), for like requests `A`-to-`B` and `B`-to-`A` in flight over a
store with no record between the two, there is a schedule, with both reads before either write,
in which each request sees no match, each writes `matched = false`, both responses are
`matched: false` without match id, and no id is minted. -/
theorem C5_reads_before_writes_lose_the_match (uuid : Nat → String) (records : List Swipe)
    (n : Nat) (A B : String) (bodyA bodyB : Swipe)
    (hnone : ∀ r ∈ records, ¬ ((r.UserID = A ∧ r.SwipedUserID = B)
                                ∨ (r.UserID = B ∧ r.SwipedUserID = A)))
    (hA : bodyA.SwipedUserID = B ∧ bodyA.Preference = true)
    (hB : bodyB.SwipedUserID = A ∧ bodyB.Preference = true) :
    ∃ schedule : List Bool,
      (interleave memDeps uuid schedule
          { first := Thread.start (swipeRequest A bodyA)
            second := Thread.start (swipeRequest B bodyB)
            calls := []
            world := { store := records.map MarshalMap, minted := n } }).calls
        = [Call.CheckSwipeMatch B A, Call.CheckSwipeMatch A B,
           Call.InsertSwipeRecord
             { UserID := A, SwipedUserID := B, Preference := true, Matched := false,
               MatchID := bodyA.MatchID },
           Call.InsertSwipeRecord
             { UserID := B, SwipedUserID := A, Preference := true, Matched := false,
               MatchID := bodyB.MatchID }]
      ∧ (interleave memDeps uuid schedule
          { first := Thread.start (swipeRequest A bodyA)
            second := Thread.start (swipeRequest B bodyB)
            calls := []
            world := { store := records.map MarshalMap, minted := n } }).first
        = Thread.finished
            { Code := 200, ContentType := "application/json",
              Body := ResponseBody.json [("matched", JSONValue.bool false)] }
      ∧ (interleave memDeps uuid schedule
          { first := Thread.start (swipeRequest A bodyA)
            second := Thread.start (swipeRequest B bodyB)
            calls := []
            world := { store := records.map MarshalMap, minted := n } }).second
        = Thread.finished
            { Code := 200, ContentType := "application/json",
              Body := ResponseBody.json [("matched", JSONValue.bool false)] }
      ∧ (interleave memDeps uuid schedule
          { first := Thread.start (swipeRequest A bodyA)
            second := Thread.start (swipeRequest B bodyB)
            calls := []
            world := { store := records.map MarshalMap, minted := n } }).world
        = { store := records.map MarshalMap ++
              [MarshalMap { UserID := A, SwipedUserID := B, Preference := true,
                            Matched := false, MatchID := bodyA.MatchID },
               MarshalMap { UserID := B, SwipedUserID := A, Preference := true,
                            Matched := false, MatchID := bodyB.MatchID }],
            minted := n } := by
  obtain ⟨au, at_, ap, am, ai⟩ := bodyA
  obtain ⟨bu, bt, bp, bm, bi⟩ := bodyB
  obtain ⟨hA1, hA2⟩ := hA
  obtain ⟨hB1, hB2⟩ := hB
  simp only at hA1 hA2 hB1 hB2
  subst hA1 hA2 hB1 hB2
  have h1 : hasLiked records at_ bt = false :=
    hasLiked_eq_false_of_no_record records at_ bt (fun r hr h => hnone r hr (Or.inr h))
  have h2 : hasLiked records bt at_ = false :=
    hasLiked_eq_false_of_no_record records bt at_ (fun r hr h => hnone r hr (Or.inl h))
  refine ⟨[false, true, false, true], ?_⟩
  simp [interleave, Pool.step, Thread.step, swipeRequest, memDeps_CheckSwipeMatch, h1, h2,
    memDeps_InsertSwipeRecord_append, writeJSON, encodeSwipeResponse]

/-- Witness for C5: `user1` and `user2` like each other concurrently over the empty store. -/
theorem C5_reads_before_writes_witness :
    (∀ r ∈ ([] : List Swipe), ¬ ((r.UserID = "user1" ∧ r.SwipedUserID = "user2")
                                ∨ (r.UserID = "user2" ∧ r.SwipedUserID = "user1")))
      ∧ (likeUser2.SwipedUserID = "user2" ∧ likeUser2.Preference = true)
      ∧ (({ likeUser2 with SwipedUserID := "user1" } : Swipe).SwipedUserID = "user1"
          ∧ ({ likeUser2 with SwipedUserID := "user1" } : Swipe).Preference = true)
      ∧ ∃ schedule : List Bool,
          (interleave memDeps sampleUuid schedule
            { first := Thread.start (swipeRequest "user1" likeUser2)
              second := Thread.start
                (swipeRequest "user2" { likeUser2 with SwipedUserID := "user1" })
              calls := []
              world := { store := ([] : List Swipe).map MarshalMap, minted := 0 } }).world.minted
            = 0 :=
  ⟨by simp, ⟨rfl, rfl⟩, ⟨rfl, rfl⟩,
    (C5_reads_before_writes_lose_the_match sampleUuid [] 0 "user1" "user2" likeUser2
      { likeUser2 with SwipedUserID := "user1" } (by simp) ⟨rfl, rfl⟩ ⟨rfl, rfl⟩).elim
      (fun schedule h => ⟨schedule, by rw [h.2.2.2]⟩)⟩

/-! ## Candidate Filter Builder (`Query.Add*Filter`, `SearchUsers`) -/

/-- C17: for every query and id list, `AddExclusionFilter` leaves the query unchanged when the
list is empty; otherwise it appends exactly one `ids` clause to `must_not`, whose values are
the given list (every id, same order), and leaves `Filter` and the earlier `must_not` clauses
as they were. -/
theorem C17_AddExclusionFilter_appends_one_ids_clause (q : Query) (ids : List String) :
    (ids = [] → q.AddExclusionFilter ids = q)
      ∧ (ids ≠ [] →
          (q.AddExclusionFilter ids).Bool.MustNot = q.Bool.MustNot ++ [Clause.ids "_doc" ids]
            ∧ (q.AddExclusionFilter ids).Bool.Filter = q.Bool.Filter) := by
  constructor
  · intro h
    subst h
    rfl
  · intro h
    have hlen : ids.length > 0 := List.length_pos.2 h
    simp [Query.AddExclusionFilter, hlen]

/-- Witness for C17: the empty list on the fresh query, and a two-element list. -/
theorem C17_AddExclusionFilter_witness :
    NewQuery.AddExclusionFilter [] = NewQuery
      ∧ (NewQuery.AddExclusionFilter ["user2", "user3"]).Bool.MustNot
          = NewQuery.Bool.MustNot ++ [Clause.ids "_doc" ["user2", "user3"]] :=
  ⟨(C17_AddExclusionFilter_appends_one_ids_clause NewQuery []).1 rfl,
    ((C17_AddExclusionFilter_appends_one_ids_clause NewQuery ["user2", "user3"]).2
      (by decide)).1⟩

/-- C18: for all integers `minAge` and `maxAge`, `AddAgeRangeFilter` appends one `range` clause
on `age` to `Filter` when `minAge > 0` or `maxAge > 0`, and leaves the query unchanged
otherwise; the appended clause has the lower bound `gte = minAge` exactly when `minAge > 0`
and the upper bound `lte = maxAge` exactly when `maxAge > 0`, an unset bound being absent. -/
theorem C18_AddAgeRangeFilter_bounds (q : Query) (minAge maxAge : Int) :
    ((minAge > 0 ∨ maxAge > 0) →
        ∃ gte lte,
          q.AddAgeRangeFilter minAge maxAge
              = { q with Bool := { q.Bool with
                    Filter := q.Bool.Filter ++ [Clause.range "age" gte lte] } }
            ∧ (minAge > 0 → gte = some minAge) ∧ (¬ minAge > 0 → gte = none)
            ∧ (maxAge > 0 → lte = some maxAge) ∧ (¬ maxAge > 0 → lte = none))
      ∧ (¬ (minAge > 0 ∨ maxAge > 0) → q.AddAgeRangeFilter minAge maxAge = q) := by
  constructor
  · intro h
    refine ⟨if minAge > 0 then some minAge else none, if maxAge > 0 then some maxAge else none,
      ?_, ?_, ?_, ?_, ?_⟩
    · have h' : maxAge > 0 ∨ minAge > 0 := h.symm
      simp only [Query.AddAgeRangeFilter, if_pos h']
    · intro h1; rw [if_pos h1]
    · intro h1; rw [if_neg h1]
    · intro h1; rw [if_pos h1]
    · intro h1; rw [if_neg h1]
  · intro h
    have h' : ¬ (maxAge > 0 ∨ minAge > 0) := fun hc => h hc.symm
    simp only [Query.AddAgeRangeFilter, if_neg h']

/-- Witness for C18: `minAge` set and `maxAge` unset gives a clause open above; both unset
leaves the fresh query unchanged. -/
theorem C18_AddAgeRangeFilter_witness :
    ((18 : Int) > 0 ∨ (0 : Int) > 0)
      ∧ (∃ gte lte,
          NewQuery.AddAgeRangeFilter 18 0
              = { NewQuery with Bool := { NewQuery.Bool with
                    Filter := NewQuery.Bool.Filter ++ [Clause.range "age" gte lte] } }
            ∧ ((18 : Int) > 0 → gte = some 18) ∧ (¬ (18 : Int) > 0 → gte = none)
            ∧ ((0 : Int) > 0 → lte = some 0) ∧ (¬ (0 : Int) > 0 → lte = none))
      ∧ NewQuery.AddAgeRangeFilter 0 0 = NewQuery :=
  ⟨by decide, (C18_AddAgeRangeFilter_bounds NewQuery 18 0).1 (by decide),
    (C18_AddAgeRangeFilter_bounds NewQuery 0 0).2 (by decide)⟩

/-- The formatting `%d` of a positive integer is its decimal rendering as a natural number. -/
theorem formatKm_of_pos (n : Int) (h : n > 0) : formatKm n = Nat.repr n.toNat ++ "km" := by
  cases n with
  | ofNat m => rfl
  | negSucc m => exact absurd h (by simp)

/-- C19: for every location and integer `maxDistanceKM`, `AddGeoDistanceFilter` appends one
`geo_distance` clause to `Filter` when `maxDistanceKM > 0` and leaves the query unchanged
otherwise; the appended clause is centred at exactly the given location and its distance is
the decimal rendering of `maxDistanceKM` followed by `km`. -/
theorem C19_AddGeoDistanceFilter_centre_and_distance (q : Query) (location : UserLocationES)
    (maxDistanceKM : Int) :
    (maxDistanceKM > 0 →
        q.AddGeoDistanceFilter location maxDistanceKM
          = { q with Bool := { q.Bool with
                Filter := q.Bool.Filter ++
                  [Clause.geo_distance (Nat.repr maxDistanceKM.toNat ++ "km") "location"
                     location] } })
      ∧ (¬ maxDistanceKM > 0 → q.AddGeoDistanceFilter location maxDistanceKM = q) := by
  constructor
  · intro h
    simp only [Query.AddGeoDistanceFilter, if_pos h, formatKm_of_pos maxDistanceKM h]
  · intro h
    simp only [Query.AddGeoDistanceFilter, if_neg h]

/-- Witness for C19: fifty kilometres around a point, and a distance of zero. -/
theorem C19_AddGeoDistanceFilter_witness :
    (NewQuery.AddGeoDistanceFilter sampleProfile.Location 50).Bool.Filter
        = [Clause.geo_distance "50km" "location" sampleProfile.Location]
      ∧ NewQuery.AddGeoDistanceFilter sampleProfile.Location 0 = NewQuery :=
  ⟨by rw [(C19_AddGeoDistanceFilter_centre_and_distance NewQuery sampleProfile.Location 50).1
            (by decide)]; decide,
    (C19_AddGeoDistanceFilter_centre_and_distance NewQuery sampleProfile.Location 0).2
      (by decide)⟩

/-- The two clause lists of the query `SearchUsers` builds, in closed form. -/
theorem searchUsersQuery_eq (loc : UserLocationES) (ids : List String) (df : DiscoverFilters) :
    searchUsersQuery loc ids df
      = { Bool :=
          { MustNot := if ids = [] then [] else [Clause.ids "_doc" ids]
            Filter :=
              (if df.Gender ≠ "" then [Clause.term "gender" df.Gender] else [])
                ++ (if df.MinAge > 0 ∨ df.MaxAge > 0 then
                      [Clause.range "age" (if df.MinAge > 0 then some df.MinAge else none)
                        (if df.MaxAge > 0 then some df.MaxAge else none)]
                    else [])
                ++ (if df.MaxLocation > 0 then
                      [Clause.geo_distance (formatKm df.MaxLocation) "location" loc]
                    else []) } } := by
  have hids : (ids.length > 0) ↔ ¬ ids = [] := List.length_pos
  have hor : (df.MaxAge > 0 ∨ df.MinAge > 0) ↔ (df.MinAge > 0 ∨ df.MaxAge > 0) := or_comm
  simp only [searchUsersQuery, Query.AddExclusionFilter, Query.AddGenderFilter,
    Query.AddAgeRangeFilter, Query.AddGeoDistanceFilter, NewQuery, hids, hor]
  by_cases h1 : ids = [] <;> by_cases h2 : df.Gender = "" <;>
    by_cases h3 : (df.MinAge > 0 ∨ df.MaxAge > 0) <;> by_cases h4 : df.MaxLocation > 0 <;>
    simp [h1, h2, h3, h4]

/-- C16: the query `SearchUsers` builds from a fresh `NewQuery` has as `Filter` exactly the
clauses whose filter is set, in the order gender, age, geo (gender non-empty; `minAge > 0` or
`maxAge > 0`; `maxDistance > 0`), and as `must_not` the exclusion clause alone, or nothing for
an empty exclusion list. With no filter set `Filter` is empty; with gender `F` and `maxAge = 0`
(the rest unset) `Filter` is the one term clause `gender = F`, without an age clause. -/
theorem C16_searchUsersQuery_has_exactly_the_set_filters (loc : UserLocationES)
    (ids : List String) (df : DiscoverFilters) :
    (searchUsersQuery loc ids df).Bool.Filter
        = (if df.Gender ≠ "" then [Clause.term "gender" df.Gender] else [])
            ++ (if df.MinAge > 0 ∨ df.MaxAge > 0 then
                  [Clause.range "age" (if df.MinAge > 0 then some df.MinAge else none)
                    (if df.MaxAge > 0 then some df.MaxAge else none)]
                else [])
            ++ (if df.MaxLocation > 0 then
                  [Clause.geo_distance (formatKm df.MaxLocation) "location" loc]
                else [])
      ∧ (searchUsersQuery loc ids df).Bool.MustNot
          = (if ids = [] then [] else [Clause.ids "_doc" ids])
      ∧ ((df.Gender = "" ∧ df.MinAge ≤ 0 ∧ df.MaxAge ≤ 0 ∧ df.MaxLocation ≤ 0) →
          (searchUsersQuery loc ids df).Bool.Filter = [])
      ∧ (searchUsersQuery loc ids
            { UserID := df.UserID, Gender := "F", MaxAge := 0, MinAge := 0,
              MaxLocation := 0 }).Bool.Filter
          = [Clause.term "gender" "F"] := by
  refine ⟨by rw [searchUsersQuery_eq], by rw [searchUsersQuery_eq], ?_, ?_⟩
  · rintro ⟨h1, h2, h3, h4⟩
    rw [searchUsersQuery_eq]
    have h23 : ¬ (df.MinAge > 0 ∨ df.MaxAge > 0) := by omega
    have h4' : ¬ df.MaxLocation > 0 := by omega
    simp [h1, h23, h4']
  · rw [searchUsersQuery_eq]
    simp

/-! ## The built query under the bool-query semantics -/

/-- The gender part of `Filter`: no constraint for an empty gender, equality otherwise. -/
theorem gender_clause_all (within : UserLocationES → String → UserLocationES → Bool)
    (p : UserDetailsES) (gender : String) :
    (if gender ≠ "" then [Clause.term "gender" gender] else []).all
        (fun c => c.satisfiedBy within p) = true
      ↔ (gender = "" ∨ p.Gender = gender) := by
  by_cases h : gender = "" <;> simp [h, Clause.satisfiedBy]

/-- The age part of `Filter`: each bound constrains the age exactly when it is positive. -/
theorem age_clause_all (within : UserLocationES → String → UserLocationES → Bool)
    (p : UserDetailsES) (minAge maxAge : Int) :
    (if minAge > 0 ∨ maxAge > 0 then
        [Clause.range "age" (if minAge > 0 then some minAge else none)
          (if maxAge > 0 then some maxAge else none)]
      else []).all (fun c => c.satisfiedBy within p) = true
      ↔ (minAge ≤ 0 ∨ p.Age ≥ minAge) ∧ (maxAge ≤ 0 ∨ p.Age ≤ maxAge) := by
  by_cases h1 : minAge > 0 <;> by_cases h2 : maxAge > 0 <;>
    simp [h1, h2, Clause.satisfiedBy]
  · constructor
    · rintro ⟨ha, hb⟩; exact ⟨Or.inr ha, Or.inr hb⟩
    · rintro ⟨ha | ha, hb | hb⟩ <;> constructor <;> omega
  · constructor
    · intro ha; exact ⟨Or.inr ha, Or.inl (by omega)⟩
    · rintro ⟨ha | ha, _⟩ <;> omega
  · constructor
    · intro hb; exact ⟨Or.inl (by omega), Or.inr hb⟩
    · rintro ⟨_, hb | hb⟩ <;> omega
  · exact ⟨Or.inl (by omega), Or.inl (by omega)⟩

/-- The geo part of `Filter`: the radius test applies exactly when the distance is positive. -/
theorem geo_clause_all (within : UserLocationES → String → UserLocationES → Bool)
    (p : UserDetailsES) (loc : UserLocationES) (maxDistance : Int) :
    (if maxDistance > 0 then
        [Clause.geo_distance (formatKm maxDistance) "location" loc]
      else []).all (fun c => c.satisfiedBy within p) = true
      ↔ (maxDistance ≤ 0 ∨ within loc (formatKm maxDistance) p.Location = true) := by
  by_cases h : maxDistance > 0
  · simp only [if_pos h, List.all_cons, List.all_nil, Bool.and_true, Clause.satisfiedBy,
      decide_True, Bool.true_and]
    constructor
    · intro hw; exact Or.inr hw
    · rintro (hc | hw)
      · omega
      · exact hw
  · simp only [if_neg h, List.all_nil, true_iff]
    exact Or.inl (by omega)

/-- The exclusion part: a profile passes `must_not` exactly when its id is not excluded. -/
theorem exclusion_clause_all (within : UserLocationES → String → UserLocationES → Bool)
    (p : UserDetailsES) (ids : List String) :
    (if ids = [] then [] else [Clause.ids "_doc" ids]).all
        (fun c => !(c.satisfiedBy within p)) = true
      ↔ p.UserID ∉ ids := by
  by_cases h : ids = []
  · subst h; simp
  · simp [h, Clause.satisfiedBy]

/-- The match condition of the query `SearchUsers` builds, clause by clause. -/
theorem matchesQuery_searchUsersQuery
    (within : UserLocationES → String → UserLocationES → Bool) (loc : UserLocationES)
    (ids : List String) (df : DiscoverFilters) (p : UserDetailsES) :
    matchesQuery within (searchUsersQuery loc ids df) p = true
      ↔ p.UserID ∉ ids
        ∧ (df.Gender = "" ∨ p.Gender = df.Gender)
        ∧ (df.MinAge ≤ 0 ∨ p.Age ≥ df.MinAge)
        ∧ (df.MaxAge ≤ 0 ∨ p.Age ≤ df.MaxAge)
        ∧ (df.MaxLocation ≤ 0 ∨ within loc (formatKm df.MaxLocation) p.Location = true) := by
  rw [searchUsersQuery_eq]
  simp only [matchesQuery, List.all_append, Bool.and_eq_true, gender_clause_all,
    age_clause_all, geo_clause_all, exclusion_clause_all]
  tauto

/-- Witness for C16: the fresh query for the zero filters has no filter clause. -/
theorem C16_searchUsersQuery_witness :
    (noFilters.Gender = "" ∧ noFilters.MinAge ≤ 0 ∧ noFilters.MaxAge ≤ 0
        ∧ noFilters.MaxLocation ≤ 0)
      ∧ (searchUsersQuery zeroUser.Location ["user3"] noFilters).Bool.Filter = [] :=
  ⟨by decide,
    (C16_searchUsersQuery_has_exactly_the_set_filters zeroUser.Location ["user3"]
      noFilters).2.2.1 (by decide)⟩

/-! ## Swipe Recorder: writes and failures -/

/-- C11: for every decoded, authenticated swipe request, a dislike makes exactly one
`InsertSwipeRecord` call, and so does a like whose match lookup returns no error; a like whose
match lookup fails makes no `InsertSwipeRecord` call and is answered with the error "Failed to
check for swipe match", status 500. -/
theorem C11_one_insert_unless_lookup_fails {σ : Type} (deps : SwipeDeps σ)
    (uuid : Nat → String) (body : Swipe) (UserID : String) (w : World σ) :
    (body.Preference = false →
        insertCount (SwipeHandler deps uuid (swipeRequest UserID body) w).calls = 1)
      ∧ (body.Preference = true →
          (deps.SwipeRepo.CheckSwipeMatch body.SwipedUserID UserID w.store).1.2 = none →
          insertCount (SwipeHandler deps uuid (swipeRequest UserID body) w).calls = 1)
      ∧ (body.Preference = true →
          (deps.SwipeRepo.CheckSwipeMatch body.SwipedUserID UserID w.store).1.2 ≠ none →
          insertCount (SwipeHandler deps uuid (swipeRequest UserID body) w).calls = 0
            ∧ (SwipeHandler deps uuid (swipeRequest UserID body) w).response
                = httpError "Failed to check for swipe match" 500) := by
  obtain ⟨bu, bt, bp, bm, bi⟩ := body
  refine ⟨?_, ?_, ?_⟩
  · intro hp
    simp only at hp
    subst hp
    cases hins : deps.SwipeRepo.InsertSwipeRecord ⟨UserID, bt, false, bm, bi⟩ w.store with
    | mk err store1 =>
      cases err <;> simp [SwipeHandler, swipeRequest, hins, insertCount]
  · intro hp hok
    simp only at hp hok
    subst hp
    cases hchk : deps.SwipeRepo.CheckSwipeMatch bt UserID w.store with
    | mk res store1 =>
      obtain ⟨isMatch, err⟩ := res
      rw [hchk] at hok
      simp only at hok
      subst hok
      cases isMatch with
      | true =>
        cases hins : deps.SwipeRepo.InsertSwipeRecord
          ⟨UserID, bt, true, true, uuid w.minted⟩ store1 with
        | mk err store2 =>
          cases err <;> simp [SwipeHandler, swipeRequest, hchk, hins, insertCount]
      | false =>
        cases hins : deps.SwipeRepo.InsertSwipeRecord ⟨UserID, bt, true, false, bi⟩ store1 with
        | mk err store2 =>
          cases err <;> simp [SwipeHandler, swipeRequest, hchk, hins, insertCount]
  · intro hp hfail
    simp only at hp hfail
    subst hp
    cases hchk : deps.SwipeRepo.CheckSwipeMatch bt UserID w.store with
    | mk res store1 =>
      obtain ⟨isMatch, err⟩ := res
      rw [hchk] at hfail
      cases err with
      | none => exact absurd rfl hfail
      | some e => simp [SwipeHandler, swipeRequest, hchk, insertCount]

/-- Witness for C11: the dislike test case on the mock, and a like on a mock whose lookup
fails. -/
theorem C11_one_insert_witness :
    dislikeUser2.Preference = false
      ∧ insertCount (SwipeHandler (mockDeps none false none) sampleUuid
          (swipeRequest "user1" dislikeUser2) { store := [], minted := 0 }).calls = 1
      ∧ likeUser2.Preference = true
      ∧ ((mockDeps none false (some "db error")).SwipeRepo.CheckSwipeMatch
            likeUser2.SwipedUserID "user1" []).1.2 ≠ none
      ∧ insertCount (SwipeHandler (mockDeps none false (some "db error")) sampleUuid
          (swipeRequest "user1" likeUser2) { store := [], minted := 0 }).calls = 0 :=
  ⟨rfl,
    (C11_one_insert_unless_lookup_fails (mockDeps none false none) sampleUuid dislikeUser2
      "user1" { store := [], minted := 0 }).1 rfl,
    rfl, by decide,
    ((C11_one_insert_unless_lookup_fails (mockDeps none false (some "db error")) sampleUuid
      likeUser2 "user1" { store := [], minted := 0 }).2.2 rfl (by decide)).1⟩

/-- C12: on each of the three paths (dislike, like without match, like with match), when the
`InsertSwipeRecord` call of that path fails, the response is the error "Failed to insert swipe
record" with status 500: a text body, no `SwipeResponse`, hence neither `matched: true` nor a
match id. -/
theorem C12_failed_insert_is_answered_with_500 {σ : Type} (deps : SwipeDeps σ)
    (uuid : Nat → String) (body : Swipe) (UserID : String) (w : World σ) :
    (body.Preference = false →
        (deps.SwipeRepo.InsertSwipeRecord { body with UserID := UserID } w.store).1 ≠ none →
        (SwipeHandler deps uuid (swipeRequest UserID body) w).response
          = httpError "Failed to insert swipe record" 500)
      ∧ (body.Preference = true → ∀ store1,
          deps.SwipeRepo.CheckSwipeMatch body.SwipedUserID UserID w.store
            = ((false, none), store1) →
          (deps.SwipeRepo.InsertSwipeRecord
            { body with UserID := UserID, Matched := false } store1).1 ≠ none →
          (SwipeHandler deps uuid (swipeRequest UserID body) w).response
            = httpError "Failed to insert swipe record" 500)
      ∧ (body.Preference = true → ∀ store1,
          deps.SwipeRepo.CheckSwipeMatch body.SwipedUserID UserID w.store
            = ((true, none), store1) →
          (deps.SwipeRepo.InsertSwipeRecord
            { body with UserID := UserID, MatchID := uuid w.minted, Matched := true }
            store1).1 ≠ none →
          (SwipeHandler deps uuid (swipeRequest UserID body) w).response
            = httpError "Failed to insert swipe record" 500)
      ∧ ((httpError "Failed to insert swipe record" 500).Code = 500
          ∧ (httpError "Failed to insert swipe record" 500).Body
              = ResponseBody.text "Failed to insert swipe record"
          ∧ (httpError "Failed to insert swipe record" 500).matched = false
          ∧ (httpError "Failed to insert swipe record" 500).matchId = none) := by
  obtain ⟨bu, bt, bp, bm, bi⟩ := body
  refine ⟨?_, ?_, ?_, ⟨rfl, rfl, rfl, rfl⟩⟩
  · intro hp hfail
    simp only at hp hfail
    subst hp
    cases hins : deps.SwipeRepo.InsertSwipeRecord ⟨UserID, bt, false, bm, bi⟩ w.store with
    | mk err store1 =>
      rw [hins] at hfail
      cases err with
      | none => exact absurd rfl hfail
      | some e => simp [SwipeHandler, swipeRequest, hins]
  · intro hp store1 hchk hfail
    simp only at hp hchk hfail
    subst hp
    cases hins : deps.SwipeRepo.InsertSwipeRecord ⟨UserID, bt, true, false, bi⟩ store1 with
    | mk err store2 =>
      rw [hins] at hfail
      cases err with
      | none => exact absurd rfl hfail
      | some e => simp [SwipeHandler, swipeRequest, hchk, hins]
  · intro hp store1 hchk hfail
    simp only at hp hchk hfail
    subst hp
    cases hins : deps.SwipeRepo.InsertSwipeRecord
      ⟨UserID, bt, true, true, uuid w.minted⟩ store1 with
    | mk err store2 =>
      rw [hins] at hfail
      cases err with
      | none => exact absurd rfl hfail
      | some e => simp [SwipeHandler, swipeRequest, hchk, hins]

/-- Witness for C12: the test case "error on swipe record insertion", and a like with match on
a mock whose insert fails. -/
theorem C12_failed_insert_witness :
    dislikeUser2.Preference = false
      ∧ ((mockDeps (some "db error") false none).SwipeRepo.InsertSwipeRecord
            { dislikeUser2 with UserID := "user1" } []).1 ≠ none
      ∧ (SwipeHandler (mockDeps (some "db error") false none) sampleUuid
            (swipeRequest "user1" dislikeUser2) { store := [], minted := 0 }).response
          = httpError "Failed to insert swipe record" 500
      ∧ (SwipeHandler (mockDeps (some "db error") true none) sampleUuid
            (swipeRequest "user1" likeUser2) { store := [], minted := 0 }).response
          = httpError "Failed to insert swipe record" 500 :=
  ⟨rfl, by decide,
    (C12_failed_insert_is_answered_with_500 (mockDeps (some "db error") false none) sampleUuid
      dislikeUser2 "user1" { store := [], minted := 0 }).1 rfl (by decide),
    (C12_failed_insert_is_answered_with_500 (mockDeps (some "db error") true none) sampleUuid
      likeUser2 "user1" { store := [], minted := 0 }).2.2.1 rfl
      [Call.CheckSwipeMatch "user2" "user1"] rfl (by decide)⟩

/-- C14 (as stated, fails on the code): swipe requests with an empty target are not rejected.
Over the in-memory store a dislike of the empty target is inserted and answered with status
200, and a like of the empty target runs the match lookup and is inserted as well. -/
theorem C14_counterexample_empty_target_is_recorded :
    (SwipeHandler memDeps sampleUuid
        (swipeRequest "user1" { dislikeUser2 with SwipedUserID := "" }) emptyWorld).response
      = writeJSON { Matched := false, MatchID := "" }
    ∧ (SwipeHandler memDeps sampleUuid
        (swipeRequest "user1" { dislikeUser2 with SwipedUserID := "" }) emptyWorld).calls
      = [Call.InsertSwipeRecord
          { UserID := "user1", SwipedUserID := "", Preference := false, Matched := false,
            MatchID := "" }]
    ∧ (SwipeHandler memDeps sampleUuid
        (swipeRequest "user1" { likeUser2 with SwipedUserID := "" }) emptyWorld).calls
      = [Call.CheckSwipeMatch "" "user1",
         Call.InsertSwipeRecord
          { UserID := "user1", SwipedUserID := "", Preference := true, Matched := false,
            MatchID := "" }] := by
  refine ⟨?_, ?_, ?_⟩ <;> decide

/-! ## The acting user and the Discovery Orchestrator -/

/-- Every call of a swipe run names the context user: as `UserID` of the inserted record and as
`currentUserID` of the match lookup. -/
theorem SwipeHandler_calls_use_context_user {σ : Type} (deps : SwipeDeps σ)
    (uuid : Nat → String) (body : Swipe) (UserID : String) (w : World σ) :
    (∀ s, Call.InsertSwipeRecord s ∈ (SwipeHandler deps uuid (swipeRequest UserID body) w).calls
        → s.UserID = UserID)
      ∧ (∀ a b, Call.CheckSwipeMatch a b
            ∈ (SwipeHandler deps uuid (swipeRequest UserID body) w).calls → b = UserID) := by
  obtain ⟨bu, bt, bp, bm, bi⟩ := body
  cases bp with
  | false =>
    cases hins : deps.SwipeRepo.InsertSwipeRecord ⟨UserID, bt, false, bm, bi⟩ w.store with
    | mk err store1 =>
      cases err <;> simp [SwipeHandler, swipeRequest, hins]
  | true =>
    cases hchk : deps.SwipeRepo.CheckSwipeMatch bt UserID w.store with
    | mk res store1 =>
      obtain ⟨isMatch, err⟩ := res
      cases err with
      | some e => simp [SwipeHandler, swipeRequest, hchk]
      | none =>
        cases isMatch with
        | true =>
          cases hins : deps.SwipeRepo.InsertSwipeRecord
            ⟨UserID, bt, true, true, uuid w.minted⟩ store1 with
          | mk err store2 =>
            cases err <;> simp [SwipeHandler, swipeRequest, hchk, hins]
        | false =>
          cases hins : deps.SwipeRepo.InsertSwipeRecord ⟨UserID, bt, true, false, bi⟩ store1 with
          | mk err store2 =>
            cases err <;> simp [SwipeHandler, swipeRequest, hchk, hins]

/-- Every call of a discover run names the context user. -/
theorem DiscoverUserInsert_calls_use_context_user {ω : Type} (deps : DiscoverUserDeps ω)
    (body : DiscoverFilters) (UserID : String) (st : ω) :
    (∀ u, DiscoverCall.GetSwipedUserIDs u
          ∈ (DiscoverUserInsert deps (discoverRequest UserID body) st).calls → u = UserID)
      ∧ (∀ u, DiscoverCall.GetUserByID u
          ∈ (DiscoverUserInsert deps (discoverRequest UserID body) st).calls → u = UserID)
      ∧ (∀ loc ids df, DiscoverCall.SearchUsers loc ids df
          ∈ (DiscoverUserInsert deps (discoverRequest UserID body) st).calls
          → df.UserID = UserID) := by
  cases h1 : deps.UserRepo.GetSwipedUserIDs UserID st with
  | mk res1 st1 =>
    obtain ⟨swipedIDs, err1⟩ := res1
    cases err1 with
    | some e => simp [DiscoverUserInsert, discoverRequest, h1]
    | none =>
      cases h2 : deps.UserRepoES.GetUserByID UserID st1 with
      | mk res2 st2 =>
        obtain ⟨user, err2⟩ := res2
        cases err2 with
        | some e => simp [DiscoverUserInsert, discoverRequest, h1, h2]
        | none =>
          cases h3 : deps.UserRepoES.SearchUsers user.Location swipedIDs
            { body with UserID := UserID } st2 with
          | mk res3 st3 =>
            obtain ⟨found, err3⟩ := res3
            cases err3 <;> simp [DiscoverUserInsert, discoverRequest, h1, h2, h3] <;>
              intro loc ids df _ _ hdf <;> rw [hdf]

/-- C13: the acting user of both handlers is the identity of the request context, never the
body. Replacing the `UserID` member of the body by any value `x` changes nothing in a swipe
run or a discover run (response, calls with their arguments, resulting state); the inserted
swipe record carries the context identity as `UserID`, `CheckSwipeMatch` receives it as current
user, `GetSwipedUserIDs` and `GetUserByID` receive it as argument, and the filters handed to
`SearchUsers` carry it. -/
theorem C13_acting_user_is_the_context_identity {σ ω : Type} (deps : SwipeDeps σ)
    (uuid : Nat → String) (body : Swipe) (w : World σ) (ddeps : DiscoverUserDeps ω)
    (filters : DiscoverFilters) (st : ω) (UserID x : String) :
    SwipeHandler deps uuid (swipeRequest UserID { body with UserID := x }) w
        = SwipeHandler deps uuid (swipeRequest UserID body) w
      ∧ (∀ s, Call.InsertSwipeRecord s
            ∈ (SwipeHandler deps uuid (swipeRequest UserID body) w).calls → s.UserID = UserID)
      ∧ (∀ a b, Call.CheckSwipeMatch a b
            ∈ (SwipeHandler deps uuid (swipeRequest UserID body) w).calls → b = UserID)
      ∧ DiscoverUserInsert ddeps (discoverRequest UserID { filters with UserID := x }) st
          = DiscoverUserInsert ddeps (discoverRequest UserID filters) st
      ∧ (∀ u, DiscoverCall.GetSwipedUserIDs u
            ∈ (DiscoverUserInsert ddeps (discoverRequest UserID filters) st).calls
            → u = UserID)
      ∧ (∀ u, DiscoverCall.GetUserByID u
            ∈ (DiscoverUserInsert ddeps (discoverRequest UserID filters) st).calls
            → u = UserID)
      ∧ (∀ loc ids df, DiscoverCall.SearchUsers loc ids df
            ∈ (DiscoverUserInsert ddeps (discoverRequest UserID filters) st).calls
            → df.UserID = UserID) := by
  have hs := SwipeHandler_calls_use_context_user deps uuid body UserID w
  have hd := DiscoverUserInsert_calls_use_context_user ddeps filters UserID st
  exact ⟨rfl, hs.1, hs.2, rfl, hd.1, hd.2.1, hd.2.2⟩

/-- C20: for an authenticated discover request on which the three collaborator calls succeed,
the handler calls `GetSwipedUserIDs(actingUser)`, then `GetUserByID(actingUser)`, then
`SearchUsers` with the `Location` of the fetched profile, the id list `GetSwipedUserIDs`
returned and the filters of the request (carrying the acting user as `UserID`), and answers
with status 200 and the list `SearchUsers` returned. -/
theorem C20_discover_success_path {ω : Type} (deps : DiscoverUserDeps ω)
    (body : DiscoverFilters) (UserID : String) (st st1 st2 st3 : ω)
    (swipedIDs : List String) (user : UserDetailsES) (found : List UserDetailsES)
    (hswiped : deps.UserRepo.GetSwipedUserIDs UserID st = ((swipedIDs, none), st1))
    (huser : deps.UserRepoES.GetUserByID UserID st1 = ((user, none), st2))
    (hsearch : deps.UserRepoES.SearchUsers user.Location swipedIDs
                  { body with UserID := UserID } st2 = ((found, none), st3)) :
    (DiscoverUserInsert deps (discoverRequest UserID body) st).calls
        = [DiscoverCall.GetSwipedUserIDs UserID, DiscoverCall.GetUserByID UserID,
           DiscoverCall.SearchUsers user.Location swipedIDs
             { UserID := UserID, Gender := body.Gender, MaxAge := body.MaxAge,
               MinAge := body.MinAge, MaxLocation := body.MaxLocation }]
      ∧ (DiscoverUserInsert deps (discoverRequest UserID body) st).response
          = { Code := 200, Body := DiscoverBody.users found } := by
  simp [DiscoverUserInsert, discoverRequest, hswiped, huser, hsearch]

/-- Witness for C20: the test case "successful discovery" on the mocks, with one profile
found. -/
theorem C20_discover_success_witness :
    (mockDiscoverDeps (["user3"], none) (zeroUser, none)
          ([sampleProfile], none)).UserRepo.GetSwipedUserIDs "userID" []
        = ((["user3"], none), [DiscoverCall.GetSwipedUserIDs "userID"])
      ∧ (DiscoverUserInsert
          (mockDiscoverDeps (["user3"], none) (zeroUser, none) ([sampleProfile], none))
          (discoverRequest "userID" noFilters) []).response
        = { Code := 200, Body := DiscoverBody.users [sampleProfile] } :=
  ⟨rfl,
    (C20_discover_success_path
      (mockDiscoverDeps (["user3"], none) (zeroUser, none) ([sampleProfile], none))
      noFilters "userID" [] [DiscoverCall.GetSwipedUserIDs "userID"]
      [DiscoverCall.GetSwipedUserIDs "userID", DiscoverCall.GetUserByID "userID"]
      [DiscoverCall.GetSwipedUserIDs "userID", DiscoverCall.GetUserByID "userID",
       DiscoverCall.SearchUsers zeroUser.Location ["user3"]
         { noFilters with UserID := "userID" }]
      ["user3"] zeroUser [sampleProfile] rfl rfl rfl).2⟩

/-! ## Exclusion set (`GetSwipedUserIDs`) -/

/-- Unmarshalling a marshalled string attribute gives the string back. -/
theorem unmarshalString_marshalString (s : String) :
    unmarshalString (some (marshalString s)) = .ok s := by
  unfold marshalString
  by_cases h : s = ""
  · simp [h, unmarshalString]
  · simp [h, unmarshalString]

/-- A marshalled record satisfies the key condition of `GetSwipedUserIDs u` exactly when it is
a swipe by `u`. -/
theorem satisfiesKey_getSwipedUserIDs (u : String) (r : Swipe) :
    satisfiesKey (getSwipedUserIDsQuery u).KeyCondition (MarshalMap r)
      = decide (r.UserID = u) := by
  simp [satisfiesKey, getSwipedUserIDsQuery, MarshalMap, List.lookup, marshalString_inj]

/-- Unmarshalling the `SwipedUserID` projection of a marshalled record succeeds and yields its
target; the other fields keep their zero values. -/
theorem UnmarshalMap_project_target (r : Swipe) :
    UnmarshalMap (project "SwipedUserID" (MarshalMap r))
      = .ok { UserID := "", SwipedUserID := r.SwipedUserID, Preference := false,
              Matched := false, MatchID := "" } := by
  simp [UnmarshalMap, project, MarshalMap, List.filter, List.lookup, unmarshalBool,
    unmarshalString_marshalString]
  simp [unmarshalString]

/-- The loop over projected records collects their targets, in order. -/
theorem collectSwipedUserIDs_projected (rs : List Swipe) (acc : List String) :
    collectSwipedUserIDs (rs.map (fun r => project "SwipedUserID" (MarshalMap r))) acc
      = (acc ++ rs.map (fun r => r.SwipedUserID), none) := by
  induction rs generalizing acc with
  | nil => simp [collectSwipedUserIDs]
  | cons r rest ih =>
    simp only [List.map_cons, collectSwipedUserIDs, UnmarshalMap_project_target, ih]
    simp

/-- Over the in-memory table, `GetSwipedUserIDs u` returns the targets of the records of `u`. -/
theorem memRepo_GetSwipedUserIDs (records : List Swipe) (u : String) :
    memRepo.GetSwipedUserIDs u (records.map MarshalMap)
      = ((records.filter (fun r => decide (r.UserID = u))).map (fun r => r.SwipedUserID),
          none) := by
  have hitems : (memClient.Query (getSwipedUserIDsQuery u) (records.map MarshalMap)).1.Items
      = (records.filter (fun r => decide (r.UserID = u))).map
          (fun r => project "SwipedUserID" (MarshalMap r)) := by
    simp only [memClient, List.filter_map, List.map_map]
    have : (satisfiesKey (getSwipedUserIDsQuery u).KeyCondition ∘ MarshalMap)
        = (fun r => decide (r.UserID = u)) := by
      funext r; exact satisfiesKey_getSwipedUserIDs u r
    rw [this]
    rfl
  have key : memRepo.GetSwipedUserIDs u (records.map MarshalMap)
      = collectSwipedUserIDs
          (memClient.Query (getSwipedUserIDsQuery u) (records.map MarshalMap)).1.Items [] := rfl
  rw [key, hitems, collectSwipedUserIDs_projected]
  simp

/-- The DynamoDB half of the discover service over the in-memory store. -/
theorem NewDiscoverService_GetSwipedUserIDs {ι : Type} (es : ElasticSearchRepository ι)
    (records : List Swipe) (idx : ι) (u : String) :
    (NewDiscoverService memRepo es).UserRepo.GetSwipedUserIDs u (records.map MarshalMap, idx)
      = (((records.filter (fun r => decide (r.UserID = u))).map (fun r => r.SwipedUserID),
            none), (records.map MarshalMap, idx)) := by
  show (memRepo.GetSwipedUserIDs u (records.map MarshalMap), _) = _
  rw [memRepo_GetSwipedUserIDs]

/-- Every search of a discover run over the in-memory store excludes exactly the targets of the
acting user's stored records. -/
theorem discover_search_excludes_swiped {ι : Type} (es : ElasticSearchRepository ι)
    (records : List Swipe) (idx : ι) (u : String) (filters : DiscoverFilters)
    (loc : UserLocationES) (ids : List String) (df : DiscoverFilters)
    (h : DiscoverCall.SearchUsers loc ids df
          ∈ (DiscoverUserInsert (NewDiscoverService memRepo es) (discoverRequest u filters)
              (records.map MarshalMap, idx)).calls) :
    ids = (records.filter (fun r => decide (r.UserID = u))).map (fun r => r.SwipedUserID) := by
  have h1 := NewDiscoverService_GetSwipedUserIDs es records idx u
  cases h2 : (NewDiscoverService memRepo es).UserRepoES.GetUserByID u
      (records.map MarshalMap, idx) with
  | mk res2 st2 =>
    obtain ⟨user, err2⟩ := res2
    cases err2 with
    | some e => simp [DiscoverUserInsert, discoverRequest, h1, h2] at h
    | none =>
      cases h3 : (NewDiscoverService memRepo es).UserRepoES.SearchUsers user.Location
          ((records.filter (fun r => decide (r.UserID = u))).map (fun r => r.SwipedUserID))
          { filters with UserID := u } st2 with
      | mk res3 st3 =>
        obtain ⟨found, err3⟩ := res3
        cases err3 <;> simp [DiscoverUserInsert, discoverRequest, h1, h2, h3] at h <;>
          exact h.2.1

/-- After a served swipe of `A` on a target, the store holds a record of `A` with that target. -/
theorem swiped_target_is_stored (uuid : Nat → String) (records : List Swipe) (n : Nat)
    (A : String) (body : Swipe) :
    ∃ (records' : List Swipe) (n' : Nat),
      (SwipeHandler memDeps uuid (swipeRequest A body)
          { store := records.map MarshalMap, minted := n }).world
        = { store := records'.map MarshalMap, minted := n' }
      ∧ body.SwipedUserID
          ∈ (records'.filter (fun r => decide (r.UserID = A))).map (fun r => r.SwipedUserID) := by
  obtain ⟨records', n', hw, hdir, _⟩ :=
    SwipeHandler_mem_step uuid (swipeRequest A body) records n
  refine ⟨records', n', hw, ?_⟩
  have hmem : (A, body.SwipedUserID) ∈ recordDirections records' := by
    rw [hdir]
    simp [swipeRequest, Request.direction]
  simp only [recordDirections, List.mem_map, Prod.mk.injEq] at hmem
  obtain ⟨r, hr, h1, h2⟩ := hmem
  simp only [List.mem_map, List.mem_filter, decide_eq_true_eq]
  exact ⟨r, ⟨hr, h1⟩, h2⟩

/-- The hits of the in-memory index decode to themselves. -/
theorem decodeHits_ok (found acc : List UserDetailsES) :
    decodeHits (found.map .ok) acc = (acc ++ found, none) := by
  induction found generalizing acc with
  | nil => simp [decodeHits]
  | cons p rest ih => simp [decodeHits, ih]

/-- C21: over the store model `GetSwipedUserIDs(u)` succeeds and returns the `SwipedUserID` of
every stored record whose `UserID` is `u`, in store order, whatever its preference or matched
flag. Hence after `A` has swiped on `B` (like or dislike; any earlier store), every search a
discover run for `A` sends names `B` in its exclusion list, and over the in-memory index no
profile with id `B` is in a successful discover response for `A`. -/
theorem C21_swiped_targets_are_excluded (uuid : Nat → String) (records : List Swipe) (n : Nat)
    (A : String) (body : Swipe) (filters : DiscoverFilters) :
    (∀ u, memRepo.GetSwipedUserIDs u (records.map MarshalMap)
        = ((records.filter (fun r => decide (r.UserID = u))).map (fun r => r.SwipedUserID),
            none))
      ∧ (∀ (ι : Type) (es : ElasticSearchRepository ι) (idx : ι) loc ids df,
          DiscoverCall.SearchUsers loc ids df
            ∈ (DiscoverUserInsert (NewDiscoverService memRepo es) (discoverRequest A filters)
                ((SwipeHandler memDeps uuid (swipeRequest A body)
                    { store := records.map MarshalMap, minted := n }).world.store, idx)).calls
          → body.SwipedUserID ∈ ids)
      ∧ (∀ (within : UserLocationES → String → UserLocationES → Bool)
          (index found : List UserDetailsES),
          (DiscoverUserInsert (memDiscoverDeps within) (discoverRequest A filters)
              ((SwipeHandler memDeps uuid (swipeRequest A body)
                  { store := records.map MarshalMap, minted := n }).world.store, index)).response
            = { Code := 200, Body := DiscoverBody.users found }
          → ∀ p ∈ found, p.UserID ≠ body.SwipedUserID) := by
  obtain ⟨records', n', hw, hB⟩ := swiped_target_is_stored uuid records n A body
  refine ⟨fun u => memRepo_GetSwipedUserIDs records u, ?_, ?_⟩
  · intro ι es idx loc ids df h
    rw [hw] at h
    rw [discover_search_excludes_swiped es records' idx A filters loc ids df h]
    exact hB
  · intro within index found hresp p hp hpB
    rw [hw] at hresp
    have h1 := NewDiscoverService_GetSwipedUserIDs { EsClient := memEsClient within }
      records' index A
    simp only [memDiscoverDeps, DiscoverUserInsert, discoverRequest, h1] at hresp
    simp only [NewDiscoverService, ElasticSearchRepository.GetUserByID, memEsClient,
      ElasticSearchRepository.SearchUsers] at hresp
    cases hfind : index.find? (fun q => decide (q.UserID = A)) with
    | none => simp [hfind] at hresp
    | some me =>
      simp only [hfind, decodeHits_ok, List.nil_append] at hresp
      simp only [DiscoverResponse.mk.injEq, DiscoverBody.users.injEq, true_and] at hresp
      rw [← hresp] at hp
      simp only [searchIndex, List.mem_filter] at hp
      have hnot := ((matchesQuery_searchUsersQuery within me.Location _ _ p).1 hp.2).1
      exact hnot (hpB ▸ hB)

/-- Witness for C21: `user1` likes `user2` over the empty store and then discovers without
filters over the sample index; `user2` is not among the profiles found. -/
theorem C21_swiped_targets_witness :
    (DiscoverUserInsert (memDiscoverDeps sameSpot) (discoverRequest "user1" noFilters)
          ((SwipeHandler memDeps sampleUuid (swipeRequest "user1" likeUser2)
              { store := ([] : List Swipe).map MarshalMap, minted := 0 }).world.store,
            sampleIndex)).response
        = { Code := 200,
            Body := DiscoverBody.users
              [{ sampleProfile with UserID := "user1", Name := "Kim", Gender := "M" },
               { sampleProfile with UserID := "user3", Name := "Alex" }] }
      ∧ ∀ p ∈ [{ sampleProfile with UserID := "user1", Name := "Kim", Gender := "M" },
               { sampleProfile with UserID := "user3", Name := "Alex" }],
          p.UserID ≠ likeUser2.SwipedUserID :=
  ⟨by decide,
    (C21_swiped_targets_are_excluded sampleUuid [] 0 "user1" likeUser2 noFilters).2.2
      sameSpot sampleIndex _ (by decide)⟩

/-! ## Discovery Orchestrator: failures -/

/-- C22: for every authenticated discover request, a failure of `GetSwipedUserIDs` is answered
with status 500 "Failed to find Swiped IDs" and no further call; a failure of `GetUserByID`
with status 500 "Failed to fetch user from Elasticsearch" and no `SearchUsers` call; a failure
of `SearchUsers` with status 500 "Failed to search users with df". The three messages are
pairwise distinct, and each answer is an error text, not a user list. -/
theorem C22_discover_failures_are_surfaced {ω : Type} (deps : DiscoverUserDeps ω)
    (body : DiscoverFilters) (UserID : String) (st : ω) :
    ((deps.UserRepo.GetSwipedUserIDs UserID st).1.2 ≠ none →
        (DiscoverUserInsert deps (discoverRequest UserID body) st).response
            = { Code := 500, Body := DiscoverBody.text "Failed to find Swiped IDs" }
          ∧ (DiscoverUserInsert deps (discoverRequest UserID body) st).calls
            = [DiscoverCall.GetSwipedUserIDs UserID])
      ∧ (∀ swipedIDs st1,
          deps.UserRepo.GetSwipedUserIDs UserID st = ((swipedIDs, none), st1) →
          (deps.UserRepoES.GetUserByID UserID st1).1.2 ≠ none →
          (DiscoverUserInsert deps (discoverRequest UserID body) st).response
              = { Code := 500,
                  Body := DiscoverBody.text "Failed to fetch user from Elasticsearch" }
            ∧ (DiscoverUserInsert deps (discoverRequest UserID body) st).calls
              = [DiscoverCall.GetSwipedUserIDs UserID, DiscoverCall.GetUserByID UserID])
      ∧ (∀ swipedIDs st1 user st2,
          deps.UserRepo.GetSwipedUserIDs UserID st = ((swipedIDs, none), st1) →
          deps.UserRepoES.GetUserByID UserID st1 = ((user, none), st2) →
          (deps.UserRepoES.SearchUsers user.Location swipedIDs
              { body with UserID := UserID } st2).1.2 ≠ none →
          (DiscoverUserInsert deps (discoverRequest UserID body) st).response
              = { Code := 500, Body := DiscoverBody.text "Failed to search users with df" })
      ∧ ("Failed to find Swiped IDs" ≠ "Failed to fetch user from Elasticsearch"
          ∧ "Failed to find Swiped IDs" ≠ "Failed to search users with df"
          ∧ "Failed to fetch user from Elasticsearch" ≠ "Failed to search users with df") := by
  refine ⟨?_, ?_, ?_, by decide⟩
  · intro hfail
    cases h1 : deps.UserRepo.GetSwipedUserIDs UserID st with
    | mk res1 st1 =>
      obtain ⟨swipedIDs, err1⟩ := res1
      rw [h1] at hfail
      cases err1 with
      | none => exact absurd rfl hfail
      | some e => simp [DiscoverUserInsert, discoverRequest, h1]
  · intro swipedIDs st1 h1 hfail
    cases h2 : deps.UserRepoES.GetUserByID UserID st1 with
    | mk res2 st2 =>
      obtain ⟨user, err2⟩ := res2
      rw [h2] at hfail
      cases err2 with
      | none => exact absurd rfl hfail
      | some e => simp [DiscoverUserInsert, discoverRequest, h1, h2]
  · intro swipedIDs st1 user st2 h1 h2 hfail
    cases h3 : deps.UserRepoES.SearchUsers user.Location swipedIDs
        { body with UserID := UserID } st2 with
    | mk res3 st3 =>
      obtain ⟨found, err3⟩ := res3
      rw [h3] at hfail
      cases err3 with
      | none => exact absurd rfl hfail
      | some e => simp [DiscoverUserInsert, discoverRequest, h1, h2, h3]

/-- Witness for C22: the test case "query failure on fetching swiped user IDs" on the mocks. -/
theorem C22_discover_failures_witness :
    ((mockDiscoverDeps ([], some "database query error") (zeroUser, none)
          ([], none)).UserRepo.GetSwipedUserIDs "userID" []).1.2 ≠ none
      ∧ (DiscoverUserInsert
          (mockDiscoverDeps ([], some "database query error") (zeroUser, none) ([], none))
          (discoverRequest "userID" noFilters) []).response
        = { Code := 500, Body := DiscoverBody.text "Failed to find Swiped IDs" } :=
  ⟨by decide,
    ((C22_discover_failures_are_surfaced
        (mockDiscoverDeps ([], some "database query error") (zeroUser, none) ([], none))
        noFilters "userID" []).1 (by decide)).1⟩

/-! ## The acting user in its own results -/

/-- C23 (as stated, fails on the code): `user2` has swiped on nobody and discovers without
filters over an index that holds its own profile. The query built for it is matched by that
profile, and the response lists `user2` itself. -/
theorem C23_counterexample_user_discovers_itself :
    matchesQuery sameSpot (searchUsersQuery sampleProfile.Location [] noFilters) sampleProfile
        = true
      ∧ (DiscoverUserInsert (memDiscoverDeps sameSpot)
          (discoverRequest sampleProfile.UserID noFilters) ([], [sampleProfile])).response
        = { Code := 200, Body := DiscoverBody.users [sampleProfile] } := by
  constructor <;> decide

/-- C23 (amended): under the bool-query semantics, the query Discover builds for an acting user
from its own profile's location, its swiped ids and its filters is not matched by that profile
when the user has swiped on itself; when it has not, the profile matches exactly when it
passes the filters that are set, and so whenever no filter is set. -/
theorem C23_self_is_excluded_only_after_a_self_swipe
    (within : UserLocationES → String → UserLocationES → Bool) (own : UserDetailsES)
    (swipedIDs : List String) (df : DiscoverFilters) :
    (own.UserID ∈ swipedIDs →
        matchesQuery within (searchUsersQuery own.Location swipedIDs df) own = false)
      ∧ (own.UserID ∉ swipedIDs →
          (matchesQuery within (searchUsersQuery own.Location swipedIDs df) own = true
            ↔ (df.Gender = "" ∨ own.Gender = df.Gender)
              ∧ (df.MinAge ≤ 0 ∨ own.Age ≥ df.MinAge)
              ∧ (df.MaxAge ≤ 0 ∨ own.Age ≤ df.MaxAge)
              ∧ (df.MaxLocation ≤ 0
                  ∨ within own.Location (formatKm df.MaxLocation) own.Location = true)))
      ∧ (own.UserID ∉ swipedIDs →
          (df.Gender = "" ∧ df.MinAge ≤ 0 ∧ df.MaxAge ≤ 0 ∧ df.MaxLocation ≤ 0) →
          matchesQuery within (searchUsersQuery own.Location swipedIDs df) own = true) := by
  have key := matchesQuery_searchUsersQuery within own.Location swipedIDs df own
  refine ⟨?_, ?_, ?_⟩
  · intro hin
    cases hm : matchesQuery within (searchUsersQuery own.Location swipedIDs df) own
    · rfl
    · exact absurd hin (key.1 hm).1
  · intro hout
    rw [key]
    exact ⟨fun h => h.2, fun h => ⟨hout, h⟩⟩
  · rintro hout ⟨h1, h2, h3, h4⟩
    exact key.2 ⟨hout, Or.inl h1, Or.inl h2, Or.inl h3, Or.inl h4⟩

/-- Witness for C23 (amended): after a self-swipe the sample profile does not match its own
query; without one, and without filters, it does. -/
theorem C23_self_exclusion_witness :
    sampleProfile.UserID ∈ ["user2"]
      ∧ matchesQuery sameSpot (searchUsersQuery sampleProfile.Location ["user2"] noFilters)
          sampleProfile = false
      ∧ sampleProfile.UserID ∉ ([] : List String)
      ∧ matchesQuery sameSpot (searchUsersQuery sampleProfile.Location [] noFilters)
          sampleProfile = true :=
  ⟨by decide,
    (C23_self_is_excluded_only_after_a_self_swipe sameSpot sampleProfile ["user2"]
      noFilters).1 (by decide),
    by decide,
    (C23_self_is_excluded_only_after_a_self_swipe sameSpot sampleProfile []
      noFilters).2.2 (by decide) (by decide)⟩

/-! ## Login: the user that is not stored -/

/-- A scan that succeeds without items makes `GetUserByEmail` return `nil, nil`. -/
theorem GetUserByEmail_without_items {τ : Type} (client : DynamoDBScan τ)
    (unmarshalUser : Item → Except Error UserDetails) (email : String) (db : τ)
    (hscan : client.Scan { TableName := usersTable, Filter := ("email", marshalString email) }
              db = ({ Items := [] }, none)) :
    GetUserByEmail client unmarshalUser email db = (none, none) := by
  simp [GetUserByEmail, hscan]

/-- When `GetUserByEmail` returns `nil, nil` for validated credentials, the handler panics on
the `nil` user right after that call: no response is written and neither the password service
nor the token service is called. -/
theorem LoginHandler_panics_on_nil_user {ω : Type} (deps : LoginDeps ω) (lc : LoginCredentials)
    (st st1 : ω) (hvalid : ValidateLogin lc = none)
    (hnil : deps.UserRepo.GetUserByEmail lc.Email st = ((none, none), st1)) :
    (LoginHandler deps (some lc) st).exit = Exit.panicked nilDereference
      ∧ (LoginHandler deps (some lc) st).calls = [LoginCall.GetUserByEmail lc.Email] := by
  simp [LoginHandler, hvalid, hnil]

/-- When `GetUserByEmail` returns an error, as the mock of the test case "user not found"
does, the handler answers "Server error" with status 500. -/
theorem LoginHandler_repository_error {ω : Type} (deps : LoginDeps ω) (lc : LoginCredentials)
    (st st1 : ω) (user : Option UserDetails) (e : Error) (hvalid : ValidateLogin lc = none)
    (herr : deps.UserRepo.GetUserByEmail lc.Email st = ((user, some e), st1)) :
    (LoginHandler deps (some lc) st).exit = Exit.responded (httpError "Server error" 500)
      ∧ (LoginHandler deps (some lc) st).calls = [LoginCall.GetUserByEmail lc.Email] := by
  simp [LoginHandler, hvalid, herr]

/-- C24 (fails on the code): the credentials of the test case "user not found" are well-formed
and belong to no stored user. `GetUserByEmail` reports that as `nil, nil`, and the handler then
panics on the `nil` user: its only call is `GetUserByEmail`, and it writes no response, so not
the status 500 "Server error". -/
theorem C24_user_not_found_panics :
    ValidateLogin missingUser = none
      ∧ (sampleLoginDeps none ("token123", none)).UserRepo.GetUserByEmail missingUser.Email
          sampleUsers = ((none, none), sampleUsers)
      ∧ (LoginHandler (sampleLoginDeps none ("token123", none)) (some missingUser)
          sampleUsers).exit = Exit.panicked nilDereference
      ∧ (LoginHandler (sampleLoginDeps none ("token123", none)) (some missingUser)
          sampleUsers).calls = [LoginCall.GetUserByEmail "missing@example.com"]
      ∧ (LoginHandler (sampleLoginDeps none ("token123", none)) (some missingUser)
          sampleUsers).exit ≠ Exit.responded (httpError "Server error" 500) := by
  refine ⟨?_, ?_, ?_, ?_, ?_⟩ <;> decide

/-! ## Token keys -/

/-- The signing key equals the verification key exactly when `JWT_KEY` is unset, empty or
`quick_match` itself. -/
theorem signingKey_eq_verificationKey_iff (jwtKey : Option String) :
    signingKey (envWith jwtKey) = verificationKey
      ↔ (jwtKey = none ∨ jwtKey = some "" ∨ jwtKey = some "quick_match") := by
  cases jwtKey with
  | none => simp [signingKey, Getenv, envWith, verificationKey]
  | some v =>
    by_cases hv : v = ""
    · simp [signingKey, Getenv, envWith, verificationKey, hv]
    · simp [signingKey, Getenv, envWith, verificationKey, hv]

/-- C25 (fails on the code): with `JWT_KEY=s3cret` the token for `u1` is signed with `s3cret`
while the middleware verifies with the literal `quick_match`; the keys differ, and the
middleware answers the freshly issued token with status 401 instead of putting `u1` into the
context. With `JWT_KEY` unset the same token request is accepted. -/
theorem C25_env_key_is_not_the_verification_key :
    signingKey (envWith (some "s3cret")) = "s3cret"
      ∧ verificationKey = "quick_match"
      ∧ signingKey (envWith (some "s3cret")) ≠ verificationKey
      ∧ JWTMiddleware plainJWT 1000
          ("Bearer " ++ (GenerateToken plainJWT (envWith (some "s3cret")) 1000 "u1").1)
        = Guarded.rejected (httpError "Invalid or expired token: signature is invalid" 401)
      ∧ JWTMiddleware plainJWT 1000
          ("Bearer " ++ (GenerateToken plainJWT (envWith none) 1000 "u1").1)
        = Guarded.next "u1" := by
  refine ⟨?_, ?_, ?_, ?_, ?_⟩ <;> decide

/-! ## At most one match per pair without a repeated like -/

/-- The opposite of a direction between `A` and `B` is a direction between them. -/
theorem inPair_swap (A B u t : String) (h : inPair A B (u, t) = true) :
    inPair A B (t, u) = true := by
  simp only [inPair, decide_eq_true_eq, Prod.mk.injEq] at h ⊢
  rcases h with h | h
  · exact Or.inr ⟨h.2, h.1⟩
  · exact Or.inl ⟨h.2, h.1⟩

/-- A decodable, authenticated request is between `A` and `B` when its direction is. -/
theorem between_eq_inPair (A B u : String) (body : Swipe) :
    Request.between A B { Body := some body, UserID := some u }
      = inPair A B (u, body.SwipedUserID) := by
  simp [Request.between, Request.direction, inPair]

/-- A stored like between `A` and `B` is among the pair's likes. -/
theorem mem_pairLikes_of_hasLiked (A B : String) (records : List Swipe) (source target : String)
    (hpair : inPair A B (source, target) = true)
    (h : hasLiked records source target = true) :
    (source, target) ∈ pairLikes A B records := by
  obtain ⟨r, hr, h1, h2, h3⟩ := (hasLiked_iff records source target).1 h
  simp only [pairLikes, List.mem_map, List.mem_filter, Bool.and_eq_true]
  refine ⟨r, ⟨hr, h3, ?_⟩, by rw [h1, h2]⟩
  rw [h1, h2]
  exact hpair

/-- The likes between `A` and `B` after one more record. -/
theorem pairLikes_append (A B : String) (records : List Swipe) (s : Swipe) :
    pairLikes A B (records ++ [s])
      = pairLikes A B records
          ++ (if (s.Preference && inPair A B (s.UserID, s.SwipedUserID)) = true
              then [(s.UserID, s.SwipedUserID)] else []) := by
  simp only [pairLikes, List.filter_append, List.map_append]
  congr 1
  cases h : (s.Preference && inPair A B (s.UserID, s.SwipedUserID)) <;>
    simp [List.filter_cons, h]

/-- One request over the store model, seen from the pair `A`, `B`: a served like between the two
adds its direction to the pair's stored likes, nothing else changes them, and a matched
response between the two is a like whose opposite like is stored. -/
theorem SwipeHandler_mem_pair_step (uuid : Nat → String) (A B : String) (r : Request)
    (records : List Swipe) (n : Nat) :
    ∃ (records' : List Swipe) (n' : Nat),
      (SwipeHandler memDeps uuid r { store := records.map MarshalMap, minted := n }).world
          = { store := records'.map MarshalMap, minted := n' }
        ∧ pairLikes A B records' = pairLikes A B records ++ (r.pairLike A B).toList
        ∧ ((r.between A B
              && (SwipeHandler memDeps uuid r
                    { store := records.map MarshalMap, minted := n }).response.matched) = true →
            ∃ u t, r.pairLike A B = some (u, t) ∧ (t, u) ∈ pairLikes A B records) := by
  obtain ⟨body, user⟩ := r
  cases body with
  | none =>
    refine ⟨records, n, rfl, by simp [Request.pairLike, Request.likeDirection], ?_⟩
    intro h
    simp [SwipeHandler, httpError, Response.matched] at h
  | some body =>
    cases user with
    | none =>
      refine ⟨records, n, rfl, by simp [Request.pairLike, Request.likeDirection], ?_⟩
      intro h
      simp [SwipeHandler, httpError, Response.matched] at h
    | some u =>
      have e := SwipeHandler_mem uuid u body records n
      rw [swipeRequest] at e
      rw [e]
      have hb := between_eq_inPair A B u body
      obtain ⟨bu, bt, bp, bm, bi⟩ := body
      simp only at hb
      cases bp with
      | false =>
        refine ⟨records ++ [⟨u, bt, false, bm, bi⟩], n, by simp, ?_, ?_⟩
        · rw [pairLikes_append]
          simp [Request.pairLike, Request.likeDirection]
        · intro h
          simp [matched_writeJSON] at h
      | true =>
        cases hl : hasLiked records bt u with
        | true =>
          refine ⟨records ++ [⟨u, bt, true, true, uuid n⟩], n + 1, by simp [hl], ?_, ?_⟩
          · rw [pairLikes_append]
            cases hin : inPair A B (u, bt) <;>
              simp [Request.pairLike, Request.likeDirection, hb, hin]
          · intro h
            rw [Bool.and_eq_true, hb] at h
            exact ⟨u, bt, by simp [Request.pairLike, Request.likeDirection, hb, h.1],
              mem_pairLikes_of_hasLiked A B records bt u (inPair_swap A B u bt h.1) hl⟩
        | false =>
          refine ⟨records ++ [⟨u, bt, true, false, bi⟩], n, by simp [hl], ?_, ?_⟩
          · rw [pairLikes_append]
            cases hin : inPair A B (u, bt) <;>
              simp [Request.pairLike, Request.likeDirection, hb, hin]
          · intro h
            simp [hl, matched_writeJSON] at h

/-- A matched response answers a like. -/
theorem likeDirection_of_matched {σ : Type} (deps : SwipeDeps σ) (uuid : Nat → String)
    (r : Request) (w : World σ)
    (h : (SwipeHandler deps uuid r w).response.matched = true) :
    r.likeDirection ≠ none := by
  obtain ⟨body, user⟩ := r
  cases body with
  | none => simp [SwipeHandler, httpError, Response.matched] at h
  | some body =>
    cases user with
    | none => simp [SwipeHandler, httpError, Response.matched] at h
    | some u =>
      obtain ⟨bu, bt, bp, bm, bi⟩ := body
      cases bp with
      | true => simp [Request.likeDirection]
      | false =>
        exfalso
        cases hins : deps.SwipeRepo.InsertSwipeRecord ⟨u, bt, false, bm, bi⟩ w.store with
        | mk err store1 =>
          cases err with
          | none =>
            have hresp : (SwipeHandler deps uuid
                { Body := some ⟨bu, bt, false, bm, bi⟩, UserID := some u } w).response
                = writeJSON { Matched := false, MatchID := "" } := by
              simp [SwipeHandler, hins]
            rw [hresp, matched_writeJSON] at h
            exact Bool.false_ne_true h
          | some e => simp [SwipeHandler, hins, httpError, Response.matched] at h

/-- Requests none of which is a like between `A` and `B` produce no match for that pair. -/
theorem matchesBetween_serve_eq_zero_of_no_like {σ : Type} (deps : SwipeDeps σ)
    (uuid : Nat → String) (A B : String) (reqs : List Request) (w : World σ)
    (h : ∀ r ∈ reqs, r.pairLike A B = none) :
    matchesBetween A B (serve deps uuid reqs w) = 0 := by
  induction reqs generalizing w with
  | nil => rfl
  | cons r rest ih =>
    rw [serve, matchesBetween_cons, ih _ (fun q hq => h q (List.mem_cons_of_mem _ hq))]
    have hr := h r (List.mem_cons_self _ _)
    have : (r.between A B && (SwipeHandler deps uuid r w).response.matched) = false := by
      rw [Bool.eq_false_iff]
      intro hc
      rw [Bool.and_eq_true] at hc
      have hlike := likeDirection_of_matched deps uuid r w hc.2
      simp only [Request.pairLike, hc.1, if_true] at hr
      exact hlike hr
    simp [this]

/-- The directions of the likes between `A` and `B` among a request list, one request at a
time. -/
theorem filterMap_pairLike_cons (A B : String) (r : Request) (rest : List Request) :
    (r :: rest).filterMap (Request.pairLike A B)
      = (r.pairLike A B).toList ++ rest.filterMap (Request.pairLike A B) := by
  cases h : r.pairLike A B <;> simp [List.filterMap_cons, h]

/-- The invariant behind C3, from any store: when no like between `A` and `B` is made twice
(neither stored already nor repeated among the requests), at most one response between the
two is matched. -/
theorem matchesBetween_serve_le_one_of_no_repeated_like (uuid : Nat → String) (A B : String)
    (reqs : List Request) (records : List Swipe) (n : Nat)
    (hnodup : (pairLikes A B records ++ reqs.filterMap (Request.pairLike A B)).Nodup) :
    matchesBetween A B
      (serve memDeps uuid reqs { store := records.map MarshalMap, minted := n }) ≤ 1 := by
  induction reqs generalizing records n with
  | nil => simp [serve, matchesBetween]
  | cons r rest ih =>
    obtain ⟨records', n', hw, hlikes, hmatched⟩ :=
      SwipeHandler_mem_pair_step uuid A B r records n
    have hnodup' : (pairLikes A B records'
        ++ rest.filterMap (Request.pairLike A B)).Nodup := by
      rw [hlikes, List.append_assoc, ← filterMap_pairLike_cons]
      exact hnodup
    rw [serve, matchesBetween_cons, hw]
    by_cases hc : (r.between A B && (SwipeHandler memDeps uuid r
        { store := records.map MarshalMap, minted := n }).response.matched) = true
    · rw [if_pos hc]
      obtain ⟨u, t, hd, hopp⟩ := hmatched hc
      have hin : inPair A B (u, t) = true := by
        rw [Bool.and_eq_true] at hc
        have hb := hc.1
        simp only [Request.pairLike, hb, if_true] at hd
        obtain ⟨body, user⟩ := r
        cases body with
        | none => simp [Request.likeDirection] at hd
        | some body =>
          cases user with
          | none => simp [Request.likeDirection] at hd
          | some v =>
            rw [between_eq_inPair] at hb
            by_cases hp : body.Preference = true
            · simp [Request.likeDirection, hp] at hd
              rw [← hd.1, ← hd.2]
              exact hb
            · simp [Request.likeDirection, hp] at hd
      have hboth : ∀ d, inPair A B d = true → d ∈ pairLikes A B records' := by
        intro d hdin
        have hu : (u, t) ∈ pairLikes A B records' := by
          rw [hlikes, hd]; simp
        have ht : (t, u) ∈ pairLikes A B records' := by
          rw [hlikes]; exact List.mem_append_left _ hopp
        simp only [inPair, decide_eq_true_eq] at hin hdin
        rcases hin with hin | hin <;> rcases hdin with hdin | hdin
        · rw [hdin, ← hin]; exact hu
        · have hd' : d = (t, u) := by
            rw [hdin]
            simp only [Prod.mk.injEq] at hin ⊢
            exact ⟨hin.2.symm, hin.1.symm⟩
          rw [hd']; exact ht
        · have hd' : d = (t, u) := by
            rw [hdin]
            simp only [Prod.mk.injEq] at hin ⊢
            exact ⟨hin.2.symm, hin.1.symm⟩
          rw [hd']; exact ht
        · rw [hdin, ← hin]; exact hu
      have hzero : matchesBetween A B
          (serve memDeps uuid rest { store := records'.map MarshalMap, minted := n' }) = 0 := by
        apply matchesBetween_serve_eq_zero_of_no_like
        intro q hq
        cases hql : q.pairLike A B with
        | none => rfl
        | some d =>
          exfalso
          have hdin : inPair A B d = true := by
            obtain ⟨body, user⟩ := q
            by_cases hb : Request.between A B { Body := body, UserID := user } = true
            · simp only [Request.pairLike, hb, if_true] at hql
              cases body with
              | none => simp [Request.likeDirection] at hql
              | some body =>
                cases user with
                | none => simp [Request.likeDirection] at hql
                | some v =>
                  rw [between_eq_inPair] at hb
                  by_cases hp : body.Preference = true
                  · simp [Request.likeDirection, hp] at hql
                    rw [← hql]; exact hb
                  · simp [Request.likeDirection, hp] at hql
            · simp [Request.pairLike, hb] at hql
          have hdisj := (List.nodup_append.1 hnodup').2.2
          exact hdisj (hboth d hdin) (List.mem_filterMap.2 ⟨q, hq, hql⟩)
      rw [hzero]
    · rw [if_neg hc, Nat.zero_add]
      exact ih records' n' hnodup'

/-- C3 (amended): over the store model, starting from the empty store, for every sequence of
sequentially served requests in which no like between `A` and `B` is made twice (`A` likes `B`
at most once and `B` likes `A` at most once; dislikes, repeated or not, and swipes on other
users are unrestricted), at most one response to a swipe between `A` and `B` carries
`matched = true` (and with it a minted id). -/
theorem C3_at_most_one_match_without_repeated_like (uuid : Nat → String) (A B : String)
    (reqs : List Request)
    (hnorepeat :
      ((reqs.filter (Request.between A B)).filterMap Request.likeDirection).Nodup) :
    matchesBetween A B (serve memDeps uuid reqs emptyWorld) ≤ 1 := by
  have hconv : (reqs.filter (Request.between A B)).filterMap Request.likeDirection
      = reqs.filterMap (Request.pairLike A B) := by
    rw [List.filterMap_filter]
    rfl
  rw [hconv] at hnorepeat
  have h := matchesBetween_serve_le_one_of_no_repeated_like uuid A B reqs [] 0
    (by simpa [pairLikes] using hnorepeat)
  simpa [emptyWorld] using h

/-- Witness for C3 (amended): two dislikes, then a like after them, the like back, and one more
dislike; each like between the two is made once. -/
theorem C3_at_most_one_match_without_repeated_like_witness :
    (([swipeRequest "user1" dislikeUser2, swipeRequest "user1" dislikeUser2,
       swipeRequest "user1" likeUser2,
       swipeRequest "user2" { likeUser2 with SwipedUserID := "user1" },
       swipeRequest "user1" dislikeUser2].filter (Request.between "user1" "user2")).filterMap
        Request.likeDirection).Nodup
      ∧ matchesBetween "user1" "user2"
          (serve memDeps sampleUuid
            [swipeRequest "user1" dislikeUser2, swipeRequest "user1" dislikeUser2,
             swipeRequest "user1" likeUser2,
             swipeRequest "user2" { likeUser2 with SwipedUserID := "user1" },
             swipeRequest "user1" dislikeUser2] emptyWorld) ≤ 1 :=
  ⟨by decide,
    C3_at_most_one_match_without_repeated_like sampleUuid "user1" "user2"
      [swipeRequest "user1" dislikeUser2, swipeRequest "user1" dislikeUser2,
       swipeRequest "user1" likeUser2,
       swipeRequest "user2" { likeUser2 with SwipedUserID := "user1" },
       swipeRequest "user1" dislikeUser2] (by decide)⟩

/-- The handler answers with status 400 exactly when the body does not decode. -/
theorem SwipeHandler_code_400_iff {σ : Type} (deps : SwipeDeps σ) (uuid : Nat → String)
    (r : Request) (w : World σ) :
    (SwipeHandler deps uuid r w).response.Code = 400 ↔ r.Body = none := by
  obtain ⟨body, user⟩ := r
  cases body with
  | none => simp [SwipeHandler, httpError]
  | some body =>
    cases user with
    | none => simp [SwipeHandler, httpError]
    | some u =>
      obtain ⟨bu, bt, bp, bm, bi⟩ := body
      cases bp with
      | false =>
        cases hins : deps.SwipeRepo.InsertSwipeRecord ⟨u, bt, false, bm, bi⟩ w.store with
        | mk err store1 => cases err <;> simp [SwipeHandler, hins, writeJSON, httpError]
      | true =>
        cases hchk : deps.SwipeRepo.CheckSwipeMatch bt u w.store with
        | mk res store1 =>
          obtain ⟨isMatch, err⟩ := res
          cases err with
          | some e => simp [SwipeHandler, hchk, httpError]
          | none =>
            cases isMatch with
            | true =>
              cases hins : deps.SwipeRepo.InsertSwipeRecord
                ⟨u, bt, true, true, uuid w.minted⟩ store1 with
              | mk err store2 =>
                cases err <;> simp [SwipeHandler, hchk, hins, writeJSON, httpError]
            | false =>
              cases hins : deps.SwipeRepo.InsertSwipeRecord ⟨u, bt, true, false, bi⟩ store1 with
              | mk err store2 =>
                cases err <;> simp [SwipeHandler, hchk, hins, writeJSON, httpError]

/-- C14 (amended): the handler does not validate the target. For every decoded, authenticated
swipe request whose target user id is empty: a dislike is passed to `InsertSwipeRecord` with
the empty target; a like is passed to `CheckSwipeMatch("", actingUser)` and, when that returns
no error, to `InsertSwipeRecord` with the empty target (after minting an id when it reports a
match); the store is left as that write left it. The answer is the usual 200 response when the write succeeds, status 500 "Failed to
insert swipe record" when the write fails, and status 500 "Failed to check for swipe match"
with no write when the lookup fails. The handler answers 400 only for a body that does not
decode. -/
theorem C14_empty_target_is_not_validated {σ : Type} (deps : SwipeDeps σ)
    (uuid : Nat → String) (body : Swipe) (UserID : String) (w : World σ)
    (hempty : body.SwipedUserID = "") :
    (∀ (r : Request) (w0 : World σ),
        (SwipeHandler deps uuid r w0).response.Code = 400 ↔ r.Body = none)
      ∧ (body.Preference = false →
          (SwipeHandler deps uuid (swipeRequest UserID body) w).calls
              = [Call.InsertSwipeRecord
                  { UserID := UserID, SwipedUserID := "", Preference := false,
                    Matched := body.Matched, MatchID := body.MatchID }]
            ∧ (SwipeHandler deps uuid (swipeRequest UserID body) w).world.store
                = (deps.SwipeRepo.InsertSwipeRecord
                    { UserID := UserID, SwipedUserID := "", Preference := false,
                      Matched := body.Matched, MatchID := body.MatchID } w.store).2
            ∧ ((deps.SwipeRepo.InsertSwipeRecord
                  { UserID := UserID, SwipedUserID := "", Preference := false,
                    Matched := body.Matched, MatchID := body.MatchID } w.store).1 = none →
                (SwipeHandler deps uuid (swipeRequest UserID body) w).response
                  = writeJSON { Matched := false, MatchID := "" })
            ∧ ((deps.SwipeRepo.InsertSwipeRecord
                  { UserID := UserID, SwipedUserID := "", Preference := false,
                    Matched := body.Matched, MatchID := body.MatchID } w.store).1 ≠ none →
                (SwipeHandler deps uuid (swipeRequest UserID body) w).response
                  = httpError "Failed to insert swipe record" 500))
      ∧ (body.Preference = true →
          (∀ isMatch e store1,
              deps.SwipeRepo.CheckSwipeMatch "" UserID w.store = ((isMatch, some e), store1) →
              (SwipeHandler deps uuid (swipeRequest UserID body) w).calls
                  = [Call.CheckSwipeMatch "" UserID]
                ∧ (SwipeHandler deps uuid (swipeRequest UserID body) w).response
                    = httpError "Failed to check for swipe match" 500)
            ∧ (∀ store1,
                deps.SwipeRepo.CheckSwipeMatch "" UserID w.store = ((false, none), store1) →
                (SwipeHandler deps uuid (swipeRequest UserID body) w).calls
                    = [Call.CheckSwipeMatch "" UserID,
                       Call.InsertSwipeRecord
                        { UserID := UserID, SwipedUserID := "", Preference := true,
                          Matched := false, MatchID := body.MatchID }]
                  ∧ (SwipeHandler deps uuid (swipeRequest UserID body) w).world.store
                      = (deps.SwipeRepo.InsertSwipeRecord
                          { UserID := UserID, SwipedUserID := "", Preference := true,
                            Matched := false, MatchID := body.MatchID } store1).2
                  ∧ ((deps.SwipeRepo.InsertSwipeRecord
                        { UserID := UserID, SwipedUserID := "", Preference := true,
                          Matched := false, MatchID := body.MatchID } store1).1 = none →
                      (SwipeHandler deps uuid (swipeRequest UserID body) w).response
                        = writeJSON { Matched := false, MatchID := "" })
                  ∧ ((deps.SwipeRepo.InsertSwipeRecord
                        { UserID := UserID, SwipedUserID := "", Preference := true,
                          Matched := false, MatchID := body.MatchID } store1).1 ≠ none →
                      (SwipeHandler deps uuid (swipeRequest UserID body) w).response
                        = httpError "Failed to insert swipe record" 500))
            ∧ (∀ store1,
                deps.SwipeRepo.CheckSwipeMatch "" UserID w.store = ((true, none), store1) →
                (SwipeHandler deps uuid (swipeRequest UserID body) w).calls
                    = [Call.CheckSwipeMatch "" UserID, Call.uuidNew,
                       Call.InsertSwipeRecord
                        { UserID := UserID, SwipedUserID := "", Preference := true,
                          Matched := true, MatchID := uuid w.minted }]
                  ∧ (SwipeHandler deps uuid (swipeRequest UserID body) w).world.store
                      = (deps.SwipeRepo.InsertSwipeRecord
                          { UserID := UserID, SwipedUserID := "", Preference := true,
                            Matched := true, MatchID := uuid w.minted } store1).2
                  ∧ ((deps.SwipeRepo.InsertSwipeRecord
                        { UserID := UserID, SwipedUserID := "", Preference := true,
                          Matched := true, MatchID := uuid w.minted } store1).1 = none →
                      (SwipeHandler deps uuid (swipeRequest UserID body) w).response
                        = writeJSON { Matched := true, MatchID := uuid w.minted })
                  ∧ ((deps.SwipeRepo.InsertSwipeRecord
                        { UserID := UserID, SwipedUserID := "", Preference := true,
                          Matched := true, MatchID := uuid w.minted } store1).1 ≠ none →
                      (SwipeHandler deps uuid (swipeRequest UserID body) w).response
                        = httpError "Failed to insert swipe record" 500))) := by
  obtain ⟨bu, bt, bp, bm, bi⟩ := body
  simp only at hempty
  subst hempty
  refine ⟨fun r w0 => SwipeHandler_code_400_iff deps uuid r w0, ?_, ?_⟩
  · intro hp
    simp only at hp
    subst hp
    cases hins : deps.SwipeRepo.InsertSwipeRecord ⟨UserID, "", false, bm, bi⟩ w.store with
    | mk err store1 =>
      cases err <;> simp [SwipeHandler, swipeRequest, hins]
  · intro hp
    simp only at hp
    subst hp
    refine ⟨?_, ?_, ?_⟩
    · intro isMatch e store1 hchk
      simp [SwipeHandler, swipeRequest, hchk]
    · intro store1 hchk
      cases hins : deps.SwipeRepo.InsertSwipeRecord ⟨UserID, "", true, false, bi⟩ store1 with
      | mk err store2 =>
        cases err <;> simp [SwipeHandler, swipeRequest, hchk, hins]
    · intro store1 hchk
      cases hins : deps.SwipeRepo.InsertSwipeRecord
        ⟨UserID, "", true, true, uuid w.minted⟩ store1 with
      | mk err store2 =>
        cases err <;> simp [SwipeHandler, swipeRequest, hchk, hins]

/-- Witness for C14 (amended): a dislike of the empty target on the mock whose insert succeeds
is answered with the 200 response, and on the mock whose insert fails with status 500. -/
theorem C14_empty_target_is_not_validated_witness :
    ({ dislikeUser2 with SwipedUserID := "" } : Swipe).SwipedUserID = ""
      ∧ (SwipeHandler (mockDeps none false none) sampleUuid
          (swipeRequest "user1" { dislikeUser2 with SwipedUserID := "" })
          { store := [], minted := 0 }).response
        = writeJSON { Matched := false, MatchID := "" }
      ∧ (SwipeHandler (mockDeps (some "db error") false none) sampleUuid
          (swipeRequest "user1" { dislikeUser2 with SwipedUserID := "" })
          { store := [], minted := 0 }).response
        = httpError "Failed to insert swipe record" 500 :=
  ⟨rfl,
    ((C14_empty_target_is_not_validated (mockDeps none false none) sampleUuid
      { dislikeUser2 with SwipedUserID := "" } "user1" { store := [], minted := 0 } rfl).2.1
      rfl).2.2.1 (by decide),
    ((C14_empty_target_is_not_validated (mockDeps (some "db error") false none) sampleUuid
      { dislikeUser2 with SwipedUserID := "" } "user1" { store := [], minted := 0 } rfl).2.1
      rfl).2.2.2 (by decide)⟩

end QuickMatch
